import Mathlib

/-!
Verification development for the RJMM PDF scraper repository.

The parsing core of the repository (`scraper.py` and `scraper_2014.py`) is a
family of pure string functions built on Python's `re` module.  This file
gives a shallow embedding of that core:

* a small backtracking regular-expression engine (`RE`, `mrun`, `research`)
  with Python's ordered-choice / greedy / lazy semantics for exactly the
  constructs the source uses (character classes, sequencing, alternation,
  greedy and lazy repetition, optional groups, capture groups, lookahead,
  the un-anchored `$` and end-of-input);
* each regular expression of the source transcribed into the `RE` syntax;
* each parsing function of the source transcribed into Lean, line by line;
* the theorems settling the claims.

Network effects (`requests`) are modelled by passing the outcome in as an
argument: the author-existence lookup becomes a `String → Bool` parameter,
and the HTTP response of `_check_author_exists` becomes an `Except Unit Nat`
argument (transport error, or status code).
-/

namespace Scraper

/-! ### Character sets and basic string helpers -/

/-- Python `\s` for `str` patterns, restricted to the whitespace characters
that occur in this development (ASCII whitespace and the no-break space). -/
def pyWs (c : Char) : Bool :=
  c = ' ' || c = '\t' || c = '\n' || c = '\r' ||
  c = '\x0b' || c = '\x0c' || c = ' '

/-- Characters at which Python `str.splitlines` breaks a line
(restricted to the repertoire used here). -/
def isLineBreakCh (c : Char) : Bool :=
  c = '\n' || c = '\r' || c = '\x0b' || c = '\x0c'

def isDigitCh (c : Char) : Bool := c.isDigit

/-- The superscript digits of `_SUP_RANGE` (`⁰¹²³⁴⁵⁶⁷⁸⁹`). -/
def supDigits : List Char :=
  ['⁰', '¹', '²', '³', '⁴',
   '⁵', '⁶', '⁷', '⁸', '⁹']

def isSupCh (c : Char) : Bool := supDigits.contains c

/-- `str.translate(_SUP_TO_DIG)`: map each superscript digit to the
corresponding ASCII digit, leave everything else unchanged. -/
def supToDig (c : Char) : Char :=
  if c = '⁰' then '0'
  else if c = '¹' then '1'
  else if c = '²' then '2'
  else if c = '³' then '3'
  else if c = '⁴' then '4'
  else if c = '⁵' then '5'
  else if c = '⁶' then '6'
  else if c = '⁷' then '7'
  else if c = '⁸' then '8'
  else if c = '⁹' then '9'
  else c

/-- Python `\w` for `str` patterns, restricted to the character repertoire of
this development: ASCII alphanumerics, underscore, the Latin-1 letter ranges
of the source's name pattern, the Romanian diacritics, and the superscript
digits (which are Unicode-numeric and hence word characters in Python). -/
def pyWordCh (c : Char) : Bool :=
  c.isAlphanum || c = '_' ||
  (0xC0 ≤ c.val && c.val ≤ 0xD6) || (0xD8 ≤ c.val && c.val ≤ 0xF6) ||
  (0xF8 ≤ c.val && c.val ≤ 0xFF) ||
  c = 'ă' || c = 'Ă' || c = 'ș' || c = 'Ș' || c = 'ț' || c = 'Ț' ||
  isSupCh c

/-- Python `str.islower()` on a single character, over the same repertoire. -/
def pyIsLowerCh (c : Char) : Bool :=
  ('a' ≤ c && c ≤ 'z') ||
  (0xDF ≤ c.val && c.val ≤ 0xF6) || (0xF8 ≤ c.val && c.val ≤ 0xFF) ||
  c = 'ă' || c = 'ș' || c = 'ț'

/-- `str.strip()` (no argument): remove whitespace at both ends. -/
def pyStripL (cs : List Char) : List Char :=
  ((cs.dropWhile pyWs).reverse.dropWhile pyWs).reverse

def pyStrip (s : String) : String := String.mk (pyStripL s.data)

/-- `needle` occurs as a contiguous substring of `hay` (`in` on Python str). -/
def containsSub (hay needle : List Char) : Bool :=
  match hay with
  | [] => needle.isEmpty
  | _ :: t => needle.isPrefixOf hay || containsSub t needle

def strContains (hay needle : String) : Bool := containsSub hay.data needle.data

def strStartsWith (s pre : String) : Bool := pre.data.isPrefixOf s.data

/-- ASCII lower-casing of a string (Python `str.lower()` restricted to the
ASCII letters; the article-type and keyword tables are all ASCII). -/
def lowerStr (s : String) : String := String.mk (s.data.map Char.toLower)

def upperStr (s : String) : String := String.mk (s.data.map Char.toUpper)

/-- `str.splitlines()` over the line-break repertoire used here. -/
def splitLinesL (fuel : Nat) (cs : List Char) : List (List Char) :=
  match fuel, cs with
  | 0, _ => []
  | _, [] => []
  | fuel + 1, cs =>
    let line := cs.takeWhile (fun c => !isLineBreakCh c)
    let rest := cs.dropWhile (fun c => !isLineBreakCh c)
    match rest with
    | '\r' :: '\n' :: t => line :: splitLinesL fuel t
    | _ :: t => line :: splitLinesL fuel t
    | [] => [line]

def splitlinesPy (s : String) : List String :=
  (splitLinesL (s.data.length + 1) s.data).map String.mk

/-- `" ".join(s.split())`: collapse whitespace runs, trim ends. -/
def pyWords (fuel : Nat) (cs : List Char) : List (List Char) :=
  match fuel, cs.dropWhile pyWs with
  | _, [] => []
  | 0, _ => []
  | fuel + 1, cs =>
    cs.takeWhile (fun c => !pyWs c) :: pyWords fuel (cs.dropWhile (fun c => !pyWs c))

def collapseWs (s : String) : String :=
  String.intercalate " " ((pyWords (s.data.length + 1) s.data).map String.mk)

/-- Numeric value of a decimal digit string (Python `int` on the marker). -/
def digitsVal (s : String) : Nat :=
  s.data.foldl (fun acc c => 10 * acc + (c.toNat - '0'.toNat)) 0

/-- Python `str.split(sep)` for a one-character separator (keeps empty
pieces). -/
def splitOnChar (sep : Char) : List Char → List (List Char)
  | [] => [[]]
  | c :: t =>
    if c = sep then [] :: splitOnChar sep t
    else
      match splitOnChar sep t with
      | h :: rest => (c :: h) :: rest
      | [] => [[c]]

def strSplitOnChar (sep : Char) (s : String) : List String :=
  (splitOnChar sep s.data).map String.mk

/-- Python `str.replace(old, "")`: drop all non-overlapping occurrences of
`old`, scanning left to right. -/
def dropSubL (fuel : Nat) (needle hay : List Char) : List Char :=
  match fuel with
  | 0 => hay
  | fuel + 1 =>
    match hay with
    | [] => []
    | c :: t =>
      if !needle.isEmpty && needle.isPrefixOf (c :: t) then
        dropSubL fuel needle ((c :: t).drop needle.length)
      else c :: dropSubL fuel needle t

def strDropSub (s needle : String) : String :=
  String.mk (dropSubL (s.data.length + 1) needle.data s.data)

/-! ### The regular-expression engine

Syntax and a backtracking matcher with Python's deterministic semantics:
alternation tries the left branch first, greedy repetition tries one more
iteration before stopping, lazy repetition stops before iterating, capture
groups record the consumed substring (innermost/latest occurrence wins),
lookahead matches without consuming, `lineEnd` is the un-anchored `$`
(end of input, or just before a final newline), `eos` is end of input. -/

inductive RE : Type where
  | eps : RE
  | cls : (Char → Bool) → RE
  | seq : RE → RE → RE
  | alt : RE → RE → RE
  | star : Bool → RE → RE
  | grp : Nat → RE → RE
  | look : RE → RE
  | lineEnd : RE
  | eos : RE

abbrev Caps := List (Nat × List Char)

/-- Backtracking CPS matcher.  `k` is the continuation receiving the
remaining input and the captures; the first success in Python's
preference order wins. -/
def mrun (fuel : Nat) (r : RE) (cs : List Char) (g : Caps)
    (k : List Char → Caps → Option (List Char × Caps)) :
    Option (List Char × Caps) :=
  match fuel with
  | 0 => none
  | fuel + 1 =>
    match r with
    | RE.eps => k cs g
    | RE.cls p =>
      match cs with
      | [] => none
      | c :: rest => if p c then k rest g else none
    | RE.seq a b => mrun fuel a cs g (fun cs2 g2 => mrun fuel b cs2 g2 k)
    | RE.alt a b =>
      match mrun fuel a cs g k with
      | some res => some res
      | none => mrun fuel b cs g k
    | RE.star greedy a =>
      let loop := fun cs2 g2 =>
        if cs2.length < cs.length then mrun fuel (RE.star greedy a) cs2 g2 k else none
      if greedy then
        match mrun fuel a cs g loop with
        | some res => some res
        | none => k cs g
      else
        match k cs g with
        | some res => some res
        | none => mrun fuel a cs g loop
    | RE.grp n a =>
      mrun fuel a cs g (fun cs2 g2 => k cs2 ((n, cs.take (cs.length - cs2.length)) :: g2))
    | RE.look a =>
      match mrun fuel a cs g (fun cs2 g2 => some (cs2, g2)) with
      | some (_, g2) => k cs g2
      | none => none
    | RE.lineEnd =>
      match cs with
      | [] => k cs g
      | ['\n'] => k cs g
      | _ => none
    | RE.eos =>
      match cs with
      | [] => k cs g
      | _ => none

/-- Fuel large enough for every pattern in this file on the given input. -/
def fuelFor (cs : List Char) : Nat := (cs.length + 64) * 64

/-- Anchored match (`re.match`): try the pattern at the start only.
Returns the remainder after the match and the captures. -/
def rmatch (r : RE) (cs : List Char) : Option (List Char × Caps) :=
  mrun (fuelFor cs) r cs [] (fun rest g => some (rest, g))

/-- A successful search result: the suffix of the input at which the match
starts, the remainder after the match, and the captures. -/
structure MRes where
  startSuf : List Char
  rest : List Char
  caps : Caps
deriving Repr, DecidableEq

/-- Un-anchored search (`re.search`): try each start position left to right. -/
def research (r : RE) : List Char → Option MRes
  | [] =>
    match rmatch r [] with
    | some (rest, g) => some ⟨[], rest, g⟩
    | none => none
  | c :: t =>
    match rmatch r (c :: t) with
    | some (rest, g) => some ⟨c :: t, rest, g⟩
    | none => research r t

/-- The substring consumed by a successful match. -/
def MRes.matched (m : MRes) : List Char :=
  m.startSuf.take (m.startSuf.length - m.rest.length)

/-- `match.start()`: index of the match start in the original input. -/
def MRes.startIdx (m : MRes) (whole : List Char) : Nat :=
  whole.length - m.startSuf.length

/-- `match.group(n)`: latest capture of group `n`, if the group matched. -/
def MRes.group (m : MRes) (n : Nat) : Option (List Char) :=
  (m.caps.find? (fun p => p.1 = n)).map Prod.snd

/-- Pattern combinators. -/
def reChar (c : Char) : RE := RE.cls (fun x => x = c)

def reStr (s : String) : RE :=
  s.data.foldr (fun c r => RE.seq (reChar c) r) RE.eps

/-- Case-insensitive literal (ASCII case folding, as in the source's `re.I`
patterns, which are all ASCII). -/
def reStrCI (s : String) : RE :=
  s.data.foldr (fun c r => RE.seq (RE.cls (fun x => x.toLower = c.toLower)) r) RE.eps

def rePlus (greedy : Bool) (a : RE) : RE := RE.seq a (RE.star greedy a)

def reOpt (greedy : Bool) (a : RE) : RE :=
  if greedy then RE.alt a RE.eps else RE.alt RE.eps a

def reSeqL (rs : List RE) : RE := rs.foldr RE.seq RE.eps

/-! ### The source's regular expressions -/

def wsC : RE := RE.cls pyWs
def nonWsC : RE := RE.cls (fun c => !pyWs c)
def digitC : RE := RE.cls isDigitCh
def supC : RE := RE.cls isSupCh
/-- `.` without `re.S`: anything except a newline. -/
def dotC : RE := RE.cls (fun c => c ≠ '\n')
/-- `.` with `re.S`: anything. -/
def dotS : RE := RE.cls (fun _ => true)
/-- `[^\n\r]`. -/
def nonNlC : RE := RE.cls (fun c => c ≠ '\n' && c ≠ '\r')
/-- `[IVXLC]` under `re.I`. -/
def romanC : RE := RE.cls (fun c => ['i', 'v', 'x', 'l', 'c'].contains c.toLower)

/-- `re.search(pattern, text)` existence, as a Bool. -/
def hasSearch (r : RE) (s : String) : Bool := (research r s.data).isSome

/-- `_detect_format`: `https://doi\.org/10\.55453/rjmm\.2025\.` (re.I). -/
def pat2025Doi : RE := reStrCI "https://doi.org/10.55453/rjmm.2025."

/-- `_detect_format`: `Vol\.\s+[IVXLC]+.*?/2020` (re.I). -/
def pat2020Vol : RE :=
  reSeqL [reStrCI "vol.", rePlus true wsC, rePlus true romanC,
          RE.star false dotC, reStr "/2020"]

/-- `_detect_format`:
`(The )?[Aa]rticle (was )?received on .+accepted for publishing on .+(2019|2020)\.` (re.I). -/
def patAccept1920 : RE :=
  reSeqL [reOpt true (reStrCI "the "), reStrCI "article ", reOpt true (reStrCI "was "),
          reStrCI "received on ", rePlus true dotC,
          reStrCI "accepted for publishing on ", rePlus true dotC,
          RE.alt (reStr "2019") (reStr "2020"), reChar '.']

/-- `https://doi\.org/` (re.I). -/
def patHttpsDoiOrg : RE := reStrCI "https://doi.org/"

/-- `doi:\s*\d` (re.I). -/
def patDoiColonDigit : RE :=
  reSeqL [reStrCI "doi:", RE.star true wsC, digitC]

/-- `_detect_format`: `Vol\.\s+[IVXLC]+.*Romanian Journal` (re.I). -/
def patVolRomanian : RE :=
  reSeqL [reStrCI "vol.", rePlus true wsC, rePlus true romanC,
          RE.star true dotC, reStrCI "romanian journal"]

/-- `Corresponding author:` (re.I). -/
def patCorrAuthorLbl : RE := reStrCI "corresponding author:"

/-- `_detect_format`:
`The article was received on [^,]+, \d{4}, and accepted for publishing on [^.]+\.` (re.I). -/
def pat2022Date : RE :=
  reSeqL [reStrCI "the article was received on ",
          rePlus true (RE.cls (fun c => c ≠ ',')), reStr ", ",
          digitC, digitC, digitC, digitC,
          reStrCI ", and accepted for publishing on ",
          rePlus true (RE.cls (fun c => c ≠ '.')), reChar '.']

/-! ### `_detect_format` -/

def has2025Doi (t : String) : Bool := hasSearch pat2025Doi t
def has2020Volume (t : String) : Bool := hasSearch pat2020Vol t
def has1920Acceptance (t : String) : Bool := hasSearch patAccept1920 t
def hasNoDoi (t : String) : Bool :=
  !hasSearch patHttpsDoiOrg t && !hasSearch patDoiColonDigit t
def hasDoiColon (t : String) : Bool := hasSearch patDoiColonDigit t
def hasVolRomanian (t : String) : Bool := hasSearch patVolRomanian t
def hasCorrLabel (t : String) : Bool := hasSearch patCorrAuthorLbl t
def has2022DatePhrase (t : String) : Bool := hasSearch pat2022Date t

/-- `_detect_format(text)` from `scraper.py`, transcribed check by check. -/
def detectFormat (text : String) : String :=
  if has2025Doi text then "2025"
  else
    let has_2020_volume := has2020Volume text
    let has_2019_2020_acceptance := has1920Acceptance text
    let has_no_doi := hasNoDoi text
    if has_2020_volume || (has_2019_2020_acceptance && has_no_doi) then "2020"
    else if hasDoiColon text then "2022"
    else if hasVolRomanian text then
      if hasCorrLabel text then "2022" else "2023"
    else if has2022DatePhrase text then "2022"
    else "2024"

/-! ### `_extract_doi_universal` and `_split_content_universal` -/

/-- `(https?://doi\.org/\S+)` (re.I). -/
def patFullDoi : RE :=
  RE.grp 1 (reSeqL [reStrCI "http", reOpt true (reStrCI "s"),
                    reStrCI "://doi.org/", rePlus true nonWsC])

/-- `doi:\s*(\S+)` (re.I). -/
def patDoiPrefix : RE :=
  reSeqL [reStrCI "doi:", RE.star true wsC, RE.grp 1 (rePlus true nonWsC)]

/-- First `https?://doi.org/...` match of the text, if any. -/
def findDoiUrl (t : String) : Option String :=
  (research patFullDoi t.data).bind fun m => (m.group 1).map String.mk

/-- First `doi: <id>` match of the text, if any (the identifier group). -/
def findDoiPrefix (t : String) : Option String :=
  (research patDoiPrefix t.data).bind fun m => (m.group 1).map String.mk

/-- `_extract_doi_universal(text)` from `scraper.py`. -/
def extractDoiUniversal (text : String) : String :=
  match findDoiUrl text with
  | some m => pyStrip m
  | none =>
    match findDoiPrefix text with
    | some id => "https://doi.org/" ++ pyStrip id
    | none => ""

/-- `https?://doi\.org/\S+\s*` (re.I), the split pattern. -/
def patSplitUrl : RE :=
  reSeqL [reStrCI "http", reOpt true (reStrCI "s"), reStrCI "://doi.org/",
          rePlus true nonWsC, RE.star true wsC]

/-- `doi:\s*\S+\s*` (re.I). -/
def patSplitDoi : RE :=
  reSeqL [reStrCI "doi:", RE.star true wsC, rePlus true nonWsC, RE.star true wsC]

/-- `_split_content_universal(text)` from `scraper.py`. -/
def splitContentUniversal (text : String) : String :=
  match research patSplitUrl text.data with
  | some m => String.mk m.rest
  | none =>
    match research patSplitDoi text.data with
    | some m =>
      if m.startIdx text.data < 2000 then String.mk m.rest else text
    | none => text

/-! ### `cleaned` (Unicode normalisation) -/

/-- NFKD decomposition of one character, over the character repertoire of
this development: ASCII is unchanged, accented Latin letters decompose into
base letter plus combining mark, the superscript digits are compatibility
equivalent to ASCII digits, and the no-break space to a plain space. -/
def nfkdChar (c : Char) : List Char :=
  if c = 'ă' then ['a', '̆'] else if c = 'Ă' then ['A', '̆']
  else if c = 'â' then ['a', '̂'] else if c = 'Â' then ['A', '̂']
  else if c = 'î' then ['i', '̂'] else if c = 'Î' then ['I', '̂']
  else if c = 'ș' then ['s', '̦'] else if c = 'Ș' then ['S', '̦']
  else if c = 'ț' then ['t', '̦'] else if c = 'Ț' then ['T', '̦']
  else if c = 'á' then ['a', '́'] else if c = 'é' then ['e', '́']
  else if c = 'í' then ['i', '́'] else if c = 'ó' then ['o', '́']
  else if c = 'ú' then ['u', '́'] else if c = 'à' then ['a', '̀']
  else if c = 'è' then ['e', '̀'] else if c = 'ä' then ['a', '̈']
  else if c = 'ö' then ['o', '̈'] else if c = 'ü' then ['u', '̈']
  else if c = ' ' then [' ']
  else if isSupCh c then [supToDig c]
  else [c]

/-- Combining marks (Unicode category Mn) of the repertoire above. -/
def isCombiningMark (c : Char) : Bool := 0x300 ≤ c.val && c.val ≤ 0x36F

/-- The inner `cleaned` helper of `_title_authors_universal`: NFKD-normalise,
drop combining marks, replace no-break spaces, collapse whitespace. -/
def cleaned (s : String) : String :=
  let d := ((s.data.map nfkdChar).flatten).filter (fun c => !isCombiningMark c)
  let d := d.map (fun c => if c = ' ' then ' ' else c)
  collapseWs (String.mk d)

/-! ### Shared line predicates -/

/-- `AFFIL_START` = `^\s*(\d+|[⁰¹²³⁴⁵⁶⁷⁸⁹]+)\s` (anchored `re.match`). -/
def patAffilStart : RE :=
  reSeqL [RE.star true wsC, RE.alt (rePlus true digitC) (rePlus true supC), wsC]

def affilStartB (ln : String) : Bool := (rmatch patAffilStart ln.data).isSome

/-- Word boundary (`\b`) after a word character: next char is not a word
character, or the input ends. -/
def wordBoundaryAfter : RE :=
  RE.alt (RE.look (RE.cls (fun c => !pyWordCh c))) RE.eos

/-- `^\s*(Abstract|Keywords?)\b` (re.I, anchored `re.match`). -/
def patAbstractKw : RE :=
  reSeqL [RE.star true wsC,
          RE.alt (reStrCI "abstract")
                 (RE.seq (reStrCI "keyword") (reOpt true (reStrCI "s"))),
          wordBoundaryAfter]

def abstractKwB (ln : String) : Bool := (rmatch patAbstractKw ln.data).isSome

def hasDigitStr (s : String) : Bool := s.data.any isDigitCh
def hasSupStr (s : String) : Bool := s.data.any isSupCh

/-! ### The title-override match of `_title_authors_universal`

`pat = re.escape(" ".join(override.split())); pat = re.sub(r"\s+", r"\\s+", pat)`.
`re.escape` escapes each space to backslash-space, so after the
`re.sub(r"\s+", r"\\s+", ...)` rewrite — which replaces only the space
character — the pattern between two consecutive tokens is a LITERAL
BACKSLASH followed by `s+`: the compiled pattern is `tok\\s+tok`, i.e.
`tok`, one `\`, one or more `s`/`S` (the `re.I` flag applies), `tok`.
A multi-word override separated by ordinary whitespace in the page text
therefore never matches; a single-word override is a plain case-insensitive
literal. -/

def overrideTokens (ov : String) : List (List Char) :=
  pyWords (ov.data.length + 1) ov.data

/-- One override token as a case-insensitive literal. -/
def tokRE (tok : List Char) : RE :=
  tok.foldr (fun c r => RE.seq (RE.cls (fun x => x.toLower = c.toLower)) r) RE.eps

/-- The inter-token separator of the compiled override pattern: a literal
backslash, then one or more `s` (case-insensitive under `re.I`). -/
def overrideSep : RE :=
  RE.seq (reChar '\\') (rePlus true (RE.cls (fun c => c.toLower = 's')))

/-- The compiled override pattern: tokens joined by `overrideSep`. -/
def overridePat : List (List Char) → RE
  | [] => RE.eps
  | [tok] => tokRE tok
  | tok :: rest => RE.seq (tokRE tok) (RE.seq overrideSep (overridePat rest))

/-- `re.search` of the compiled override pattern; `some rest` is the text
after the match end (`text[m.end():]`). -/
def findOverride (text ov : String) : Option String :=
  (research (overridePat (overrideTokens ov)) text.data).map
    (fun m => String.mk m.rest)

/-- Case-insensitive literal match of `tok` at the head of `cs`. -/
def matchLitCI : List Char → List Char → Option (List Char)
  | [], cs => some cs
  | _ :: _, [] => none
  | c :: t, d :: ds => if d.toLower = c.toLower then matchLitCI t ds else none

/-- Following the claim's words (not the source): the override tokens
matched case-insensitively at the current position, with a real whitespace
run between consecutive tokens. -/
def flexToksAt : List (List Char) → List Char → Option (List Char)
  | [], cs => some cs
  | [tok], cs => matchLitCI tok cs
  | tok :: rest, cs =>
    match matchLitCI tok cs with
    | none => none
    | some cs2 =>
      if (cs2.takeWhile pyWs).isEmpty then none
      else flexToksAt rest (cs2.dropWhile pyWs)

def flexFindL (toks : List (List Char)) : List Char → Option (List Char)
  | [] => flexToksAt toks []
  | c :: t =>
    match flexToksAt toks (c :: t) with
    | some rest => some rest
    | none => flexFindL toks t

/-- Following the claim's words: the whitespace-normalised override occurs
in the text, case-insensitively and with flexible whitespace between its
tokens. -/
def occursFlexible (text ov : String) : Bool :=
  (flexFindL (overrideTokens ov) text.data).isSome

/-- The stop condition of the author-collecting loops: an affiliation-marker
line, a correspondence label, or an Abstract/Keywords label. -/
def overrideStop (ln : String) : Bool :=
  affilStartB ln || strContains ln "Correspondence" ||
  strContains ln "Corresponding author" || abstractKwB ln

/-- The author-line collecting loop shared by the override branch and the
2023/2024 branch: stripped non-empty lines up to the first stop line. -/
def collectAuthorsUntilStop : List String → List String
  | [] => []
  | ln :: rest =>
    if overrideStop ln then []
    else if pyStrip ln != "" then pyStrip ln :: collectAuthorsUntilStop rest
    else collectAuthorsUntilStop rest

/-! ### `_title_authors_universal`, per-era branches -/

/-- `^\s*\w+\s*,` (anchored), the 2025 non-title test. -/
def pat2025WordComma : RE :=
  reSeqL [RE.star true wsC, rePlus true (RE.cls pyWordCh), RE.star true wsC, reChar ',']

/-- The 2025 title scan over lines 3–6. -/
def title2025 (lines : List String) : String :=
  match ((lines.take 7).drop 3).findSome? (fun l =>
    let line := pyStrip l
    if line != "" && !strStartsWith line "http" && !(rmatch pat2025WordComma line.data).isSome
    then some (cleaned line) else none) with
  | some t => t
  | none => ""

/-- The 2025 authors scan over lines 5–8. -/
def authors2025 (lines : List String) : String :=
  match ((lines.take 9).drop 5).findSome? (fun l =>
    let line := pyStrip l
    if line != "" && strContains line "," && (hasDigitStr line || hasSupStr line)
    then some (cleaned line) else none) with
  | some a => a
  | none => ""

/-- The article-type table of the 2020 branch. -/
def articleTypes2020 : List String :=
  ["ARTICLE", "CLINICAL PRACTICE", "COMMENTARY", "COMMUNICATION",
   "LETTER", "LITERATURE REVIEW", "NARRATIVE REVIEW", "ORIGINAL ARTICLE",
   "ORIGINAL ARTICLES", "ORIGINAL RESEARCH", "REVIEW", "REVIEW ARTICLE",
   "SYSTEMATIC REVIEW", "CASE REPORT", "EDITORIAL", "VARIA"]

/-- The article-type table of the 2022/2023 header skip (adds SHORT COMMUNICATION). -/
def articleTypesElse : List String :=
  articleTypes2020 ++ ["SHORT COMMUNICATION"]

/-- `,\s*[A-Z]` (searched). -/
def patCommaCapital : RE :=
  reSeqL [reChar ',', RE.star true wsC, RE.cls (fun c => 'A' ≤ c && c ≤ 'Z')]

/-- `looks_like_authors` of the 2020 branch. -/
def looksLikeAuthors2020 (ln : String) : Bool :=
  strContains ln "," &&
  !strContains (lowerStr ln) "received" && !strContains (lowerStr ln) "accepted" &&
  !strStartsWith (pyStrip ln) "Abstract:" && !strStartsWith (pyStrip ln) "Keywords:" &&
  hasSearch patCommaCapital ln

/-- `looks_like_authors` of the 2022 branch. -/
def looksLikeAuthors2022 (ln : String) : Bool :=
  strContains ln "," && (hasDigitStr ln || hasSupStr ln) &&
  !strStartsWith (pyStrip ln) "Abstract:" && !strStartsWith (pyStrip ln) "Keywords:"

def lskipEmpty : List String → List String :=
  List.dropWhile (fun l => pyStrip l == "")

/-- Conditionally drop the date line after the 2020 article-type line. -/
def dropDateLine2020 : List String → List String
  | [] => []
  | l :: t =>
    if strContains l "Article received on" || strContains l "The article was received on"
    then t else l :: t

/-- The 2020/2022 title loop: skip empties, stop at an author-looking or
Abstract/Keywords line; returns the title lines and the remaining lines. -/
def titleLoopP (p : String → Bool) : List String → (List String × List String)
  | [] => ([], [])
  | l :: t =>
    let line := pyStrip l
    if line == "" then titleLoopP p t
    else if p line then ([], l :: t)
    else if strStartsWith line "Abstract:" || strStartsWith line "Keywords:" then ([], l :: t)
    else
      let (ts, rest) := titleLoopP p t
      (line :: ts, rest)

/-- The 2020/2022 authors loop: skip empties, stop at section/affiliation/
correspondence lines, keep only author-looking lines. -/
def authorsLoopP (p : String → Bool) : List String → List String
  | [] => []
  | l :: t =>
    let line := pyStrip l
    if line == "" then authorsLoopP p t
    else if strStartsWith line "Abstract:" || strStartsWith line "Keywords:" ||
            affilStartB line || strContains line "Correspondence" ||
            strContains line "Corresponding author" then []
    else if p line then line :: authorsLoopP p t
    else authorsLoopP p t

/-- `Vol\.\s+[IVXLC]+\s*•.*Romanian Journal of Military Medicine`
(re.I, anchored `re.match`). -/
def patVolHeader : RE :=
  reSeqL [reStrCI "vol.", rePlus true wsC, rePlus true romanC, RE.star true wsC,
          reChar '•', RE.star true dotC,
          reStrCI "romanian journal of military medicine"]

/-- The 2023/2024 date-line skip loop. -/
def skipDateElse : List String → List String
  | [] => []
  | l :: t =>
    let line := pyStrip l
    if strStartsWith line "The article was received on" ||
       strStartsWith line "article was received on" then t
    else if line != "" then l :: t
    else skipDateElse t

/-- `looks_author` of the 2023/2024 branch. -/
def looksAuthorElse (ln : String) : Bool :=
  strContains ln "," && (hasDigitStr ln || hasSupStr ln)

/-- The 2023/2024 title loop: stop at an empty or author-looking line. -/
def titleLoopElse : List String → (List String × List String)
  | [] => ([], [])
  | l :: t =>
    let ln := pyStrip l
    if ln == "" || looksAuthorElse ln then ([], l :: t)
    else
      let (ts, rest) := titleLoopElse t
      (ln :: ts, rest)

/-- `_title_authors_universal(text, format_type, override)` from `scraper.py`.
Returns `(title, authors_full)`. -/
def titleAuthorsUniversal (text : String) (formatType : String)
    (override : Option String) : String × String :=
  let ovRes : Option (String × String) :=
    match override with
    | some ov =>
      if ov != "" then
        match findOverride text ov with
        | some rest =>
          some (pyStrip ov,
                cleaned (String.intercalate " " (collectAuthorsUntilStop (splitlinesPy rest))))
        | none => none
      else none
    | none => none
  match ovRes with
  | some res => res
  | none =>
    if formatType == "2025" then
      let lines := splitlinesPy text
      (title2025 lines, authors2025 lines)
    else if formatType == "2020" then
      let lines := splitlinesPy text
      match (lines.take 20).findIdx? (fun l => articleTypes2020.contains (upperStr (pyStrip l))) with
      | none => ("", "")
      | some idx =>
        let r1 := lskipEmpty (lines.drop (idx + 1))
        let r2 := lskipEmpty (dropDateLine2020 r1)
        let (titleLines, r3) := titleLoopP looksLikeAuthors2020 r2
        let authorsLines := authorsLoopP looksLikeAuthors2020 r3
        (cleaned (String.intercalate " " titleLines),
         cleaned (String.intercalate " " authorsLines))
    else if formatType == "2022" then
      let lines := splitlinesPy text
      match lines.findIdx? (fun l =>
          strContains l "The article was received on" &&
          strContains l "accepted for publishing on") with
      | none => ("", "")
      | some idx =>
        let r1 := lskipEmpty (lines.drop (idx + 1))
        let (titleLines, r2) := titleLoopP looksLikeAuthors2022 r1
        let authorsLines := authorsLoopP looksLikeAuthors2022 r2
        (cleaned (String.intercalate " " titleLines),
         cleaned (String.intercalate " " authorsLines))
    else
      let after := splitContentUniversal text
      let lines := splitlinesPy after
      let r1 := lskipEmpty (skipDateElse lines)
      let r2 :=
        if formatType == "2022" || formatType == "2023" then
          match r1 with
          | [] => r1
          | l :: t =>
            if (rmatch patVolHeader (pyStrip l).data).isSome then lskipEmpty t else r1
        else r1
      let r3 :=
        if formatType == "2022" || formatType == "2023" then
          match r2 with
          | [] => r2
          | l :: t =>
            if articleTypesElse.contains (upperStr (pyStrip l)) then lskipEmpty t else r2
        else r2
      let (titleLines, rest) := titleLoopElse r3
      let authorsLines := collectAuthorsUntilStop (lskipEmpty rest)
      (cleaned (String.intercalate " " titleLines),
       cleaned (String.intercalate " " authorsLines))

/-! ### `_split_authors` -/

/-- The name character class of the author pattern
(`[A-Za-zÀ-ÖØ-öø-ÿăâîșțĂÂÎȘȚ.\-'\s]`). -/
def nameCh (c : Char) : Bool :=
  ('A' ≤ c && c ≤ 'Z') || ('a' ≤ c && c ≤ 'z') ||
  (0xC0 ≤ c.val && c.val ≤ 0xD6) || (0xD8 ≤ c.val && c.val ≤ 0xF6) ||
  (0xF8 ≤ c.val && c.val ≤ 0xFF) ||
  c = 'ă' || c = 'Ă' || c = 'ș' || c = 'Ș' || c = 'ț' || c = 'Ț' ||
  c = '.' || c = '-' || c = '\'' || pyWs c

def numCh (c : Char) : Bool := isDigitCh c || isSupCh c

/-- The author pattern of `_split_authors`:
`\s*([A-Z][name]+?)\s*([0-9⁰-⁹]+(?:\s*,\s*[0-9⁰-⁹]+)*)` (case-sensitive). -/
def patAuthor : RE :=
  reSeqL [RE.star true wsC,
          RE.grp 1 (RE.seq (RE.cls (fun c => 'A' ≤ c && c ≤ 'Z'))
                           (rePlus false (RE.cls nameCh))),
          RE.star true wsC,
          RE.grp 2 (RE.seq (rePlus true (RE.cls numCh))
            (RE.star true (reSeqL [RE.star true wsC, reChar ',', RE.star true wsC,
                                   rePlus true (RE.cls numCh)])))]

def capGet (g : Caps) (n : Nat) : List Char :=
  match g.find? (fun p => p.1 = n) with
  | some p => p.2
  | none => []

/-- `", ".join(group2.translate(_SUP_TO_DIG).replace(" ", "").split(","))`. -/
def normalizeOrders (g2 : List Char) : String :=
  String.intercalate ", "
    ((splitOnChar ',' ((g2.map supToDig).filter (fun c => c ≠ ' '))).map String.mk)

/-- `pat.finditer` over the author pattern: scan left to right,
non-overlapping matches. -/
def finditerAuthors (fuel : Nat) (cs : List Char) : List (String × String) :=
  match fuel with
  | 0 => []
  | fuel + 1 =>
    match cs with
    | [] => []
    | _ :: t =>
      match rmatch patAuthor cs with
      | some (rest, g) =>
        let entry := (pyStrip (String.mk (capGet g 1)), normalizeOrders (capGet g 2))
        if rest.length < cs.length then entry :: finditerAuthors fuel rest
        else entry :: finditerAuthors fuel t
      | none => finditerAuthors fuel t

/-- An author entry.  The source's `exists` key is spelled `existsB`
(`exists` is a Lean keyword). -/
structure AuthorEntry where
  name : String
  orders : String
  existsB : Bool
deriving Repr, DecidableEq

/-- `_split_authors(authors_full)` from `scraper.py`; the author-existence
lookup is passed in as `lookup`. -/
def splitAuthors (lookup : String → Bool) (authorsFull : String) : List AuthorEntry :=
  if authorsFull == "" then []
  else
    let primary := (finditerAuthors (authorsFull.data.length + 1) authorsFull.data).map
      (fun p => AuthorEntry.mk p.1 p.2 (lookup p.1))
    if primary.isEmpty && strContains authorsFull "," then
      ((authorsFull.splitOn ",").map pyStrip).filterMap (fun name =>
        if name != "" && name.data.length > 2 then
          some (AuthorEntry.mk name "" (lookup name)) else none)
    else primary

/-! ### `_correspondence_universal` -/

def emailLocalCh (c : Char) : Bool :=
  ('A' ≤ c && c ≤ 'Z') || ('a' ≤ c && c ≤ 'z') || isDigitCh c ||
  c = '.' || c = '_' || c = '%' || c = '+' || c = '-'

def emailDomCh (c : Char) : Bool :=
  ('A' ≤ c && c ≤ 'Z') || ('a' ≤ c && c ≤ 'z') || isDigitCh c || c = '.' || c = '-'

def alphaCh (c : Char) : Bool := ('A' ≤ c && c ≤ 'Z') || ('a' ≤ c && c ≤ 'z')

/-- The email body `[A-Za-z0-9._%+-]+@[A-Za-z0-9.-]+\.[A-Za-z]{2,}`. -/
def emailBody : RE :=
  reSeqL [rePlus true (RE.cls emailLocalCh), reChar '@',
          rePlus true (RE.cls emailDomCh), reChar '.',
          RE.cls alphaCh, rePlus true (RE.cls alphaCh)]

/-- `([A-Za-z0-9._%+-]+@[A-Za-z0-9.-]+\.[A-Za-z]{2,})` as group 1. -/
def patEmail : RE := RE.grp 1 emailBody

/-- First email-shaped token of a string, if any. -/
def findEmail (s : String) : Option String :=
  (research patEmail s.data).bind fun m => (m.group 1).map String.mk

/-- `Correspondence:\s*([^\n\r]+)` (re.I). -/
def patCorr2025 : RE :=
  reSeqL [reStrCI "correspondence:", RE.star true wsC, RE.grp 1 (rePlus true nonNlC)]

/-- `Corresponding author:\s*([^\n\r]+)(?:\s*\n\s*(EMAIL))?` (re.I). -/
def patCorr2022 : RE :=
  reSeqL [reStrCI "corresponding author:", RE.star true wsC,
          RE.grp 1 (rePlus true nonNlC),
          reOpt true (reSeqL [RE.star true wsC, reChar '\n', RE.star true wsC,
                              RE.grp 2 emailBody])]

/-- `_correspondence_universal(text)` from `scraper.py`.
Returns `(correspondence_email, correspondence_full)`. -/
def correspondenceUniversal (text : String) : String × String :=
  match research patCorr2025 text.data with
  | some m =>
    let fullText := pyStrip (String.mk (capGet m.caps 1))
    let email := match findEmail fullText with
                 | some e => e
                 | none => ""
    (email, fullText)
  | none =>
    match research patCorr2022 text.data with
    | some m =>
      let fullText := pyStrip (String.mk (capGet m.caps 1))
      let email := match m.group 2 with
                   | some e => pyStrip (String.mk e)
                   | none =>
                     match findEmail fullText with
                     | some e => e
                     | none => ""
      (email, fullText)
    | none =>
      let email := match findEmail text with
                   | some e => e
                   | none => ""
      (email, "")

/-! ### `_looks_like_institution` and `_looks_like_institution_continuation` -/

def institutionKeywords : List String :=
  ["university", "hospital", "college", "institute", "school", "department",
   "faculty", "center", "centre", "clinic", "medical", "emergency",
   "bucuresti", "bucharest", "romania", "timisoara", "cluj", "iasi",
   "universit", "spital", "clinica", "facultat", "haifa", "israel"]

/-- `\d+\s+(week|month|day|year|hour)s?` (searched on lowered text). -/
def patNumTimeUnit : RE :=
  reSeqL [rePlus true digitC, rePlus true wsC,
          RE.alt (reStr "week") (RE.alt (reStr "month")
            (RE.alt (reStr "day") (RE.alt (reStr "year") (reStr "hour")))),
          reOpt true (reStr "s")]

/-- `figure \d+`. -/
def patFigureNum : RE := reSeqL [reStr "figure ", rePlus true digitC]

/-- `table \d+`. -/
def patTableNum : RE := reSeqL [reStr "table ", rePlus true digitC]

/-- `\[\d+\]`. -/
def patBracketNum : RE := reSeqL [reChar '[', rePlus true digitC, reChar ']']

/-- `^\d+\.` — with `re.search` and no `re.M` this only matches at the
string start. -/
def patRefNum : RE := reSeqL [rePlus true digitC, reChar '.']

/-- `_looks_like_institution(text)` from `scraper.py`. -/
def looksLikeInstitution (text : String) : Bool :=
  if text == "" || text.data.length < 10 then false
  else
    let tl := lowerStr text
    if !institutionKeywords.any (fun kw => strContains tl kw) then false
    else if hasSearch patNumTimeUnit tl || strContains tl "postoperatively" ||
            strContains tl "preoperatively" || strContains tl "mg/body" ||
            strContains tl "pmid:" || strContains tl "doi:" ||
            hasSearch patFigureNum tl || hasSearch patTableNum tl ||
            strContains tl "play a crucial role" ||
            strContains tl "onset and metastasis" ||
            hasSearch patBracketNum tl ||
            strContains tl "has become an important" ||
            strContains tl "as a direct consequence" then false
    else true

/-- `_looks_like_institution_continuation(text)` from `scraper.py`. -/
def looksLikeInstitutionContinuation (text : String) : Bool :=
  if text == "" then false
  else
    let tl := lowerStr text
    if hasSearch patNumTimeUnit tl || strContains tl "postoperatively" ||
       strContains tl "preoperatively" || strContains tl "mg/body" ||
       strContains tl "pmid:" || strContains tl "doi:" ||
       hasSearch patFigureNum tl || hasSearch patTableNum tl ||
       (rmatch patRefNum tl.data).isSome ||
       strContains tl "collection was performed" ||
       strContains tl "histological sections" then false
    else if text.data.length > 200 then false
    else true

/-! ### `_affiliations_universal` -/

/-- `^\s*(\d+|[⁰-⁹]+)\s+(.*)$` (anchored); returns the translated number
and the remainder of the line.  (`$` is vacuous on a single line; `.*`
stops at a newline, and the scanned lines contain none.) -/
def patAffilNumLine : RE :=
  reSeqL [RE.star true wsC,
          RE.grp 1 (RE.alt (rePlus true digitC) (rePlus true supC)),
          rePlus true wsC, RE.grp 2 (RE.star true dotC)]

def affilNumLine (line : String) : Option (String × String) :=
  (rmatch patAffilNumLine line.data).map fun p =>
    (String.mk ((capGet p.2 1).map supToDig), pyStrip (String.mk (capGet p.2 2)))

/-- `^\s*(\d+|[⁰-⁹]+)\s+(.+)$` — like the above but the remainder must be
non-empty (the 2023/2024 branch uses `.+`). -/
def patAffilNumLinePlus : RE :=
  reSeqL [RE.star true wsC,
          RE.grp 1 (RE.alt (rePlus true digitC) (rePlus true supC)),
          rePlus true wsC, RE.grp 2 (rePlus true dotC)]

def affilNumLinePlus (line : String) : Option (String × String) :=
  (rmatch patAffilNumLinePlus line.data).map fun p =>
    (String.mk ((capGet p.2 1).map supToDig), pyStrip (String.mk (capGet p.2 2)))

/-- `^\s*(\d+|[⁰-⁹]+)\s+[A-Z]` — a line starting a new numbered affiliation. -/
def patAffilNumCapital : RE :=
  reSeqL [RE.star true wsC, RE.alt (rePlus true digitC) (rePlus true supC),
          rePlus true wsC, RE.cls (fun c => 'A' ≤ c && c ≤ 'Z')]

/-- `^\s*(\d+|[⁰-⁹]+)\s*$` — a bare affiliation number on its own line. -/
def patAffilBareNum : RE :=
  reSeqL [RE.star true wsC,
          RE.grp 1 (RE.alt (rePlus true digitC) (rePlus true supC)),
          RE.star true wsC, RE.eos]

/-- `^\s*(\d+|[⁰-⁹]+)` — any line starting with a number. -/
def patAffilAnyNum : RE :=
  reSeqL [RE.star true wsC, RE.alt (rePlus true digitC) (rePlus true supC)]

/-- `^\s*(Abstract|Keywords?|INTRODUCTION|REFERENCES)\b` (re.I). -/
def patSectionKw : RE :=
  reSeqL [RE.star true wsC,
          RE.alt (reStrCI "abstract")
            (RE.alt (RE.seq (reStrCI "keyword") (reOpt true (reStrCI "s")))
              (RE.alt (reStrCI "introduction") (reStrCI "references"))),
          wordBoundaryAfter]

/-- `^(METHODS|RESULTS|DISCUSSION|REFERENCES|CONCLUSIONS?)$` (re.I). -/
def patMajorSection : RE :=
  RE.seq
    (RE.alt (reStrCI "methods")
      (RE.alt (reStrCI "results")
        (RE.alt (reStrCI "discussion")
          (RE.alt (reStrCI "references")
            (RE.seq (reStrCI "conclusion") (reOpt true (reStrCI "s")))))))
    RE.lineEnd

/-- `re.sub(r'\s+\d+\s*$', '', content)`: strip a trailing page number. -/
def patTrailingNum : RE :=
  reSeqL [rePlus true wsC, rePlus true digitC, RE.star true wsC, RE.lineEnd]

def stripTrailingNum (s : String) : String :=
  match research patTrailingNum s.data with
  | some m => String.mk (s.data.take (m.startIdx s.data) ++ m.rest)
  | none => s

/-- Continuation-line collection of the 2022 branch (and, with other stop
conditions, the 2020 branch): returns the collected lines and the remaining
line list at the break point. -/
def contLoop2022 : List String → (List String × List String)
  | [] => ([], [])
  | l :: t =>
    let nl := pyStrip l
    if nl == "" then contLoop2022 t
    else if (rmatch patAffilNumCapital nl.data).isSome then ([], l :: t)
    else if strContains nl "Correspondence" || strContains nl "Corresponding author" ||
            (rmatch patSectionKw nl.data).isSome then ([], l :: t)
    else if looksLikeInstitutionContinuation nl then
      let (cl, rest) := contLoop2022 t
      (nl :: cl, rest)
    else ([], l :: t)

/-- Continuation-line collection of the 2020 branch. -/
def contLoop2020 : List String → (List String × List String)
  | [] => ([], [])
  | l :: t =>
    let nl := pyStrip l
    if nl == "" then contLoop2020 t
    else if (rmatch patAffilNumCapital nl.data).isSome then ([], l :: t)
    else if strStartsWith nl "Abstract:" || strStartsWith nl "Keywords:" ||
            strStartsWith nl "INTRODUCTION" || strStartsWith nl "BACKGROUND" then ([], l :: t)
    else if pyIsLowerCh (nl.data.headD ' ') then ([], l :: t)
    else if looksLikeInstitutionContinuation nl then
      let (cl, rest) := contLoop2020 t
      (nl :: cl, rest)
    else ([], l :: t)

/-- Continuation-line collection of the 2023/2024 bare-number case.
Non-continuation lines are skipped, not a stop. -/
def contLoopElse : List String → (List String × List String)
  | [] => ([], [])
  | l :: t =>
    let nl := pyStrip l
    if nl == "" then contLoopElse t
    else if (rmatch patAffilAnyNum nl.data).isSome then ([], l :: t)
    else if looksLikeInstitutionContinuation nl then
      let (cl, rest) := contLoopElse t
      (nl :: cl, rest)
    else
      let (cl, rest) := contLoopElse t
      (cl, rest)

/-- One assembled 2022-branch entry: join, strip trailing page number,
validate. -/
def assembleEntry (num : String) (contentLines : List String) :
    Option (String × String) :=
  let fullContent := pyStrip (String.intercalate " " contentLines)
  let fullContent := stripTrailingNum fullContent
  if fullContent != "" && fullContent.data.length > 10 &&
     looksLikeInstitution fullContent then
    some (num, fullContent)
  else none

/-- The 2022-branch scan over the window before the correspondence label. -/
def affs2022 : List String → List (String × String)
  | [] => []
  | l :: t =>
    let line := pyStrip l
    match affilNumLine line with
    | some (num, content) =>
      if looksLikeInstitution content then
        let (cl, _) := contLoop2022 t
        let contentLines := if content == "" then cl else content :: cl
        match assembleEntry num contentLines with
        | some e => e :: affs2022 t
        | none => affs2022 t
      else affs2022 t
    | none => affs2022 t

/-- The 2020-branch scan (skips past collected continuation lines). -/
def affs2020 (fuel : Nat) : List String → List (String × String) :=
  match fuel with
  | 0 => fun _ => []
  | fuel + 1 => fun ls =>
    match ls with
    | [] => []
    | l :: t =>
      let line := pyStrip l
      match affilNumLine line with
      | some (num, content) =>
        if digitsVal num > 9 then affs2020 fuel t
        else if looksLikeInstitution content || content.data.length > 5 then
          let (cl, rest) := contLoop2020 t
          let contentLines := if content == "" then cl else content :: cl
          match assembleEntry num contentLines with
          | some e => e :: affs2020 fuel rest
          | none => affs2020 fuel rest
        else affs2020 fuel t
      | none => affs2020 fuel t

/-- The 2025-branch scan: single-line affiliations. -/
def affs2025 : List String → List (String × String)
  | [] => []
  | l :: t =>
    let line := pyStrip l
    match affilNumLine line with
    | some (num, content) =>
      if looksLikeInstitution content then
        let content := stripTrailingNum content
        if content != "" && content.data.length > 10 then
          (num, content) :: affs2025 t
        else affs2025 t
      else affs2025 t
    | none => affs2025 t

/-- The 2023/2024-branch scan over the lines before the correspondence line. -/
def affsElse (fuel : Nat) : List String → List (String × String) :=
  match fuel with
  | 0 => fun _ => []
  | fuel + 1 => fun ls =>
    match ls with
    | [] => []
    | l :: t =>
      let line := pyStrip l
      match affilNumLinePlus line with
      | some (num, content) =>
        if looksLikeInstitution content then (num, content) :: affsElse fuel t
        else affsElse fuel t
      | none =>
        match rmatch patAffilBareNum line.data with
        | some (_, g) =>
          let num := String.mk ((capGet g 1).map supToDig)
          let (contentLines, rest) := contLoopElse t
          if contentLines != [] then
            let content := String.intercalate " " contentLines
            if looksLikeInstitution content then
              (num, content) :: affsElse fuel rest
            else affsElse fuel rest
          else affsElse fuel rest
        | none => affsElse fuel t

/-- The final sort of `_affiliations_universal`:
`affs.sort(key=lambda x: int(x[0]))` (a stable ascending sort by the
numeric value of the marker). -/
def sortAffs (affs : List (String × String)) : List (String × String) :=
  List.insertionSort (fun a b => digitsVal a.1 ≤ digitsVal b.1) affs

/-- The correspondence/abstract index scan of the 2025 and 2022 branches:
the index of the *last* correspondence line seen before the first abstract
line (the loop breaks at the abstract line), and the abstract index. -/
def scanCorrAbs (isCorr isAbs : String → Bool) :
    Nat → Option Nat → List String → (Option Nat × Option Nat)
  | _, corr, [] => (corr, none)
  | i, corr, l :: t =>
    if isCorr l then scanCorrAbs isCorr isAbs (i + 1) (some i) t
    else if isAbs l then (corr, some i)
    else scanCorrAbs isCorr isAbs (i + 1) corr t

/-- The branch dispatch of `_affiliations_universal` (everything before the
final sort). -/
def affsUnsorted (text : String) (formatType : String) :
    List (String × String) :=
  let lines := splitlinesPy text
  let affs :=
    if formatType == "2025" then
      let scanRes := scanCorrAbs
        (fun l => strStartsWith (pyStrip l) "Correspondence:")
        (fun l => strStartsWith (pyStrip l) "Abstract:") 0 none lines
      let endIdx :=
        match scanRes.1 with
        | some i => if i > 0 then i else
            match scanRes.2 with
            | some j => if j > 0 then j else lines.length
            | none => lines.length
        | none =>
            match scanRes.2 with
            | some j => if j > 0 then j else lines.length
            | none => lines.length
      affs2025 ((lines.take endIdx).drop 7)
    else if formatType == "2020" then
      let endIdx :=
        match lines.findIdx? (fun l => (rmatch patMajorSection (pyStrip l).data).isSome) with
        | some i => i
        | none => lines.length
      let window := lines.take endIdx
      affs2020 (window.length + 1) window
    else if formatType == "2022" then
      let scanRes := scanCorrAbs
        (fun l => strContains l "Corresponding author:")
        (fun l => strStartsWith (pyStrip l) "Abstract:") 0 none lines
      let endIdx :=
        match scanRes.1 with
        | some i => if i > 0 then i else lines.length
        | none => lines.length
      affs2022 (lines.take endIdx)
    else
      match lines.findIdx? (fun l =>
          strContains (pyStrip l) "Correspondence" ||
          strContains (pyStrip l) "Corresponding author") with
      | none => []
      | some corrIdx =>
        let affilLines := lines.take corrIdx
        affsElse (affilLines.length + 1) affilLines
  affs

/-- `_affiliations_universal(text, format_type)` from `scraper.py`:
the branch scan followed by `affs.sort(key=lambda x: int(x[0]))`. -/
def affiliationsUniversal (text : String) (formatType : String) :
    List (String × String) :=
  sortAffs (affsUnsorted text formatType)

/-! ### `_detect_article_type` -/

/-- Two lowercase words joined by `\s+`. -/
def wsJoin (a b : String) : RE := reSeqL [reStr a, rePlus true wsC, reStr b]

/-- `mini.?review`. -/
def patMiniReview : RE := reSeqL [reStr "mini", reOpt true dotC, reStr "review"]

/-- `editor.?s?\s+note`. -/
def patEditorsNote : RE :=
  reSeqL [reStr "editor", reOpt true dotC, reOpt true (reStr "s"),
          rePlus true wsC, reStr "note"]

/-- `letter\s+to\s+editor`. -/
def patLetterToEditor : RE :=
  reSeqL [reStr "letter", rePlus true wsC, reStr "to", rePlus true wsC, reStr "editor"]

/-- `_detect_article_type(text)` from `scraper.py`: the pattern table is
tried in insertion order on the lowered text; `^review$` only matches the
whole (lowered) text. -/
def detectArticleType (text : String) : String :=
  let tl := lowerStr text
  let has := fun (r : RE) => hasSearch r tl
  if has (wsJoin "original" "research") || has (wsJoin "research" "article") ||
     has (wsJoin "original" "article") then "Original Research"
  else if has (wsJoin "review" "article") || has (wsJoin "systematic" "review") ||
          has (wsJoin "literature" "review") || has patMiniReview ||
          (rmatch (RE.seq (reStr "review") RE.lineEnd) tl.data).isSome then "Review"
  else if has (wsJoin "case" "report") || has (wsJoin "case" "study") ||
          has (wsJoin "clinical" "case") then "Case Report"
  else if has (reStr "editorial") || has patEditorsNote then "Editorial"
  else if has patLetterToEditor || has (reStr "correspondence") ||
          has (reStr "letter") then "Letter"
  else if has (wsJoin "short" "communication") || has (wsJoin "brief" "communication") ||
          has (wsJoin "rapid" "communication") then "Short Communication"
  else if has (reStr "commentary") || has (reStr "perspective") ||
          has (reStr "viewpoint") then "Commentary"
  else if has (wsJoin "technical" "note") || has (reStr "methodology") ||
          has (reStr "protocol") then "Technical Note"
  else "Original Research"

/-! ### `_parse_dates_flexible` -/

structure Dates where
  received : String
  revised : String
  accepted : String
deriving Repr, DecidableEq

/-- `Received:\s*([^\n\r]+).*?(?:Revised:\s*([^\n\r]+).*?)?Accepted:\s*([^\n\r]+)`
(re.I | re.S). -/
def patDatesP1 : RE :=
  reSeqL [reStrCI "received:", RE.star true wsC, RE.grp 1 (rePlus true nonNlC),
          RE.star false dotS,
          reOpt true (reSeqL [reStrCI "revised:", RE.star true wsC,
                              RE.grp 2 (rePlus true nonNlC), RE.star false dotS]),
          reStrCI "accepted:", RE.star true wsC, RE.grp 3 (rePlus true nonNlC)]

/-- `Received:\s*([^R\n]+?)(?:\s+Revised:\s*([^A\n]+?))?\s+Accepted:\s*([^\n\r]+)`
(re.I | re.S; the negated classes are case-insensitive too). -/
def patDatesP2 : RE :=
  reSeqL [reStrCI "received:", RE.star true wsC,
          RE.grp 1 (rePlus false (RE.cls (fun c => c ≠ 'r' && c ≠ 'R' && c ≠ '\n'))),
          reOpt true (reSeqL [rePlus true wsC, reStrCI "revised:", RE.star true wsC,
                              RE.grp 2 (rePlus false
                                (RE.cls (fun c => c ≠ 'a' && c ≠ 'A' && c ≠ '\n')))]),
          rePlus true wsC, reStrCI "accepted:", RE.star true wsC,
          RE.grp 3 (rePlus true nonNlC)]

/-- The common tail
`([^,]+(?:, \d{4})?),?\s*(?:revised on ([^,]+),\s*)?and accepted for publishing on ([^.]+)\.`. -/
def datesTail : RE :=
  reSeqL [RE.grp 1 (RE.seq (rePlus true (RE.cls (fun c => c ≠ ',')))
                     (reOpt true (reSeqL [reStr ", ", digitC, digitC, digitC, digitC]))),
          reOpt true (reChar ','), RE.star true wsC,
          reOpt true (reSeqL [reStrCI "revised on ",
                              RE.grp 2 (rePlus true (RE.cls (fun c => c ≠ ','))),
                              reChar ',', RE.star true wsC]),
          reStrCI "and accepted for publishing on ",
          RE.grp 3 (rePlus true (RE.cls (fun c => c ≠ '.'))), reChar '.']

/-- `received on <tail>` (re.I | re.S). -/
def patDatesP3 : RE := RE.seq (reStrCI "received on ") datesTail

/-- `(?:The\s+)?article was received on <tail>` (re.I | re.S). -/
def patDatesP4 : RE :=
  reSeqL [reOpt true (RE.seq (reStrCI "the") (rePlus true wsC)),
          reStrCI "article was received on ", datesTail]

def patRecvSingle : RE :=
  reSeqL [reStrCI "received:", RE.star true wsC, RE.grp 1 (rePlus true nonNlC)]

def patRevSingle : RE :=
  reSeqL [reStrCI "revised:", RE.star true wsC, RE.grp 1 (rePlus true nonNlC)]

def patAccSingle : RE :=
  reSeqL [reStrCI "accepted:", RE.star true wsC, RE.grp 1 (rePlus true nonNlC)]

/-- `received on ([^,]+(?:, \d{4})?)[^.]*accepted.*?on ([^.]+)` (re.I | re.S). -/
def patDatesSimple : RE :=
  reSeqL [reStrCI "received on ",
          RE.grp 1 (RE.seq (rePlus true (RE.cls (fun c => c ≠ ',')))
                     (reOpt true (reSeqL [reStr ", ", digitC, digitC, digitC, digitC]))),
          RE.star true (RE.cls (fun c => c ≠ '.')),
          reStrCI "accepted", RE.star false dotS, reStrCI "on ",
          RE.grp 2 (rePlus true (RE.cls (fun c => c ≠ '.')))]

def datesFromMatch (m : MRes) : Dates :=
  { received := pyStrip (String.mk (capGet m.caps 1))
    revised :=
      match m.group 2 with
      | some g => if g.isEmpty then "" else pyStrip (String.mk g)
      | none => ""
    accepted := pyStrip (String.mk (capGet m.caps 3)) }

/-- `_parse_dates_flexible(text)` from `scraper.py`. -/
def parseDatesFlexible (text : String) : Dates :=
  match [patDatesP1, patDatesP2, patDatesP3, patDatesP4].findSome?
      (fun p => research p text.data) with
  | some m => datesFromMatch m
  | none =>
    let received :=
      match research patRecvSingle text.data with
      | some m => pyStrip (String.mk (capGet m.caps 1))
      | none => ""
    let revised :=
      match research patRevSingle text.data with
      | some m => pyStrip (String.mk (capGet m.caps 1))
      | none => ""
    let accepted :=
      match research patAccSingle text.data with
      | some m => pyStrip (String.mk (capGet m.caps 1))
      | none => ""
    if received != "" && accepted != "" then ⟨received, revised, accepted⟩
    else
      match research patDatesSimple text.data with
      | some m =>
        ⟨pyStrip (String.mk (capGet m.caps 1)), revised,
         pyStrip (String.mk (capGet m.caps 2))⟩
      | none => ⟨received, revised, accepted⟩

/-! ### `_extract_academic_editor` and keywords -/

/-- `Academic Editor:\s*([^\n\r]+?)(?:\s+Received:|$)` (re.I). -/
def patEditor1 : RE :=
  reSeqL [reStrCI "academic editor:", RE.star true wsC,
          RE.grp 1 (rePlus false nonNlC),
          RE.alt (RE.seq (rePlus true wsC) (reStrCI "received:")) RE.lineEnd]

/-- `Academic Editor[:\s]*([^\n\r]+)` (re.I). -/
def patEditor2 : RE :=
  reSeqL [reStrCI "academic editor",
          RE.star true (RE.cls (fun c => c = ':' || pyWs c)),
          RE.grp 1 (rePlus true nonNlC)]

/-- `Editor[:\s]*([^\n\r]+)` (re.I). -/
def patEditor3 : RE :=
  reSeqL [reStrCI "editor", RE.star true (RE.cls (fun c => c = ':' || pyWs c)),
          RE.grp 1 (rePlus true nonNlC)]

/-- `_extract_academic_editor(text)` from `scraper.py`. -/
def extractAcademicEditor (text : String) : String :=
  match [patEditor1, patEditor2, patEditor3].findSome?
      (fun p => research p text.data) with
  | some m => pyStrip (String.mk (capGet m.caps 1))
  | none => ""

/-- `Keywords?:\s*([^\n\r]+)` (re.I). -/
def patKeywords : RE :=
  reSeqL [reStrCI "keyword", reOpt true (reStrCI "s"), reChar ':',
          RE.star true wsC, RE.grp 1 (rePlus true nonNlC)]

def findKeywords (text : String) : Option String :=
  (research patKeywords text.data).map (fun m => pyStrip (String.mk (capGet m.caps 1)))

/-! ### `_extract_abstract_improved` -/

/-- The Abstract/Keywords line-index scan (the abstract index keeps being
overwritten until the first Keywords line breaks the loop). -/
def scanAbsKw : Nat → Option Nat → List String → (Option Nat × Option Nat)
  | _, a, [] => (a, none)
  | i, a, l :: t =>
    if strStartsWith (pyStrip l) "Abstract:" then scanAbsKw (i + 1) (some i) t
    else if strStartsWith (pyStrip l) "Keywords:" then (a, some i)
    else scanAbsKw (i + 1) a t

def abstractLineLoop : List String → List String
  | [] => []
  | l :: t =>
    let line := pyStrip l
    if line == "" then abstractLineLoop t
    else if strStartsWith line "Keywords:" then []
    else line :: abstractLineLoop t

/-- `Abstract:\s*([^K]+?)(?=Keywords?:|$)` (re.I | re.S). -/
def patAbstractRe : RE :=
  reSeqL [reStrCI "abstract:", RE.star true wsC,
          RE.grp 1 (rePlus false (RE.cls (fun c => c ≠ 'K' && c ≠ 'k'))),
          RE.look (RE.alt (reSeqL [reStrCI "keyword", reOpt true (reStrCI "s"), reChar ':'])
                          RE.lineEnd)]

/-- `_extract_abstract_improved(text)` from `scraper.py`. -/
def extractAbstractImproved (text : String) : String :=
  let lines := splitlinesPy text
  let scanRes := scanAbsKw 0 none lines
  let method1 : Option String :=
    match scanRes.1 with
    | none => none
    | some absIdx =>
      let firstLine := pyStrip (lines.getD absIdx "")
      let firstContent :=
        if strStartsWith firstLine "Abstract:" then
          pyStrip (String.mk (firstLine.data.drop 9))
        else ""
      let headLines := if firstContent != "" then [firstContent] else []
      let endIdx :=
        match scanRes.2 with
        | some k => if k > 0 then k else lines.length
        | none => lines.length
      let body := abstractLineLoop ((lines.take endIdx).drop (absIdx + 1))
      let absLines := headLines ++ body
      if absLines != ([] : List String) then
        let t := collapseWs (String.intercalate " " absLines)
        if t.data.length > 50 && t.data.length < 5000 &&
           !(["pmid:", "doi:", "figure", "table"].any
               (fun b => strContains (lowerStr t) b)) then
          some t
        else none
      else none
  match method1 with
  | some t => t
  | none =>
    match research patAbstractRe text.data with
    | some m =>
      let t := collapseWs (pyStrip (String.mk (capGet m.caps 1)))
      if t.data.length > 50 then t else ""
    | none => ""

/-! ### `_parse_page1_universal` and `_check_author_exists` -/

structure ArticleRecord where
  format_detected : String
  doi : String
  title : String
  authors_full : String
  authors : List AuthorEntry
  correspondence_email : String
  correspondence_full : String
  affiliations : List (String × String)
  article_type : String
  received : String
  revised : String
  accepted : String
  academic_editor : String
  keywords : String
  abstract : String
  citation : String
  article_file : String
  issue : String
  year : String
deriving Repr, DecidableEq

/-- `_parse_page1_universal(txt, override)` from `scraper.py`; the
author-existence lookup is passed in as `lookup`. -/
def parsePage1Universal (lookup : String → Bool) (txt : String)
    (override : Option String) : ArticleRecord :=
  let formatDetected := detectFormat txt
  let doi := extractDoiUniversal txt
  let ta := titleAuthorsUniversal txt formatDetected override
  let authors := splitAuthors lookup ta.2
  let corr := correspondenceUniversal txt
  let affiliations := affiliationsUniversal txt formatDetected
  let articleType := detectArticleType txt
  let dates := parseDatesFlexible txt
  let editor := extractAcademicEditor txt
  let keywords :=
    match findKeywords txt with
    | some k => k
    | none => ""
  let abstract := extractAbstractImproved txt
  { format_detected := formatDetected, doi := doi, title := ta.1,
    authors_full := ta.2, authors := authors,
    correspondence_email := corr.1, correspondence_full := corr.2,
    affiliations := affiliations, article_type := articleType,
    received := dates.received, revised := dates.revised,
    accepted := dates.accepted, academic_editor := editor,
    keywords := keywords, abstract := abstract,
    citation := "", article_file := "", issue := "", year := "" }

/-- `_check_author_exists(author_name)`: the outcome of the
`requests.head` call is passed in (`.error ()` = the request raised,
`.ok code` = a response with that status code).  The source returns
`response.status_code != 404`, and the bare `except:` maps any raised
error to `False`. -/
def checkAuthorExists (response : Except Unit Nat) : Bool :=
  match response with
  | Except.error _ => false
  | Except.ok code => code != 404

/-! ### `scraper_2014.py`: `_parse_2014_format`

The 2014 module's `_split_authors` is the same function as `scraper.py`'s
(same pattern, same fallback); its `_SUP_RANGE` constant appears byte-mangled
in the checked-in file, and is modelled with the intended superscript glyphs.
`_parse_2014_format` splits on `'\n'` (not `splitlines`), and its local
`cleaned` is whitespace collapsing only (no Unicode normalisation). -/

/-- `(Vol\.\s+[IVXLC]+.*?No\.\s*[\d\-]+/2014)` (re.I). -/
def patIssue2014 : RE :=
  RE.grp 1 (reSeqL [reStrCI "vol.", rePlus true wsC, rePlus true romanC,
                    RE.star false dotC, reStrCI "no.", RE.star true wsC,
                    rePlus true (RE.cls (fun c => isDigitCh c || c = '-')),
                    reStr "/2014"])

/-- `Article received on (.+?) and accepted for publishing on (.+?)\.?$` (re.I). -/
def patDates2014 : RE :=
  reSeqL [reStrCI "article received on ", RE.grp 1 (rePlus false dotC),
          reStrCI " and accepted for publishing on ", RE.grp 2 (rePlus false dotC),
          reOpt true (reChar '.'), RE.lineEnd]

/-- `^\s*\w+\s+\w+\s*\d` (anchored `re.match`). -/
def pat2014TwoWordsNum : RE :=
  reSeqL [RE.star true wsC, rePlus true (RE.cls pyWordCh), rePlus true wsC,
          rePlus true (RE.cls pyWordCh), RE.star true wsC, digitC]

/-- `[A-Z][a-z]+ [A-Z][a-z]+.*?\d` (searched). -/
def patNameNameNum : RE :=
  reSeqL [RE.cls (fun c => 'A' ≤ c && c ≤ 'Z'),
          rePlus true (RE.cls (fun c => 'a' ≤ c && c ≤ 'z')), reChar ' ',
          RE.cls (fun c => 'A' ≤ c && c ≤ 'Z'),
          rePlus true (RE.cls (fun c => 'a' ≤ c && c ≤ 'z')),
          RE.star false dotC, digitC]

/-- `[A-Z][a-z]+ [A-Z][a-z]+` (searched). -/
def patNameName : RE :=
  reSeqL [RE.cls (fun c => 'A' ≤ c && c ≤ 'Z'),
          rePlus true (RE.cls (fun c => 'a' ≤ c && c ≤ 'z')), reChar ' ',
          RE.cls (fun c => 'A' ≤ c && c ≤ 'Z'),
          rePlus true (RE.cls (fun c => 'a' ≤ c && c ≤ 'z'))]

/-- The first-containing-line date scan of `_parse_2014_format`. -/
def dates2014 : List String → (String × String)
  | [] => ("", "")
  | l :: t =>
    if strContains l "Article received on" then
      match research patDates2014 l.data with
      | some m =>
        (pyStrip (String.mk (capGet m.caps 1)), pyStrip (String.mk (capGet m.caps 2)))
      | none => ("", "")
    else dates2014 t

/-- The 2014 title loop over lines 6–11. -/
def title2014Go : List String → List String → List String
  | [], acc => acc
  | l :: t, acc =>
    let line := pyStrip l
    let acc2 :=
      if line != "" && !strStartsWith line "http" &&
         !strContains (lowerStr line) "received on" &&
         !strContains (lowerStr line) "accepted for publishing" &&
         !(rmatch pat2014TwoWordsNum line.data).isSome &&
         !strStartsWith line "Abstract:" then acc ++ [collapseWs line]
      else acc
    if hasSearch patNameNameNum line || strStartsWith line "Abstract:" then acc2
    else if acc2.length ≥ 2 then acc2
    else title2014Go t acc2

/-- The 2014 authors scan over lines 6–14, with one-line lookahead. -/
def authors2014Go : Nat → List String → String
  | 0, _ => ""
  | _, [] => ""
  | n + 1, l :: t =>
    let line := pyStrip l
    if hasSearch patNameNameNum line && !strStartsWith line "Abstract:" then
      let base := collapseWs line
      match t with
      | [] => base
      | nl :: _ =>
        let nextLine := pyStrip nl
        if nextLine != "" && !strStartsWith nextLine "Abstract:" &&
           hasSearch patNameName nextLine
        then base ++ " " ++ collapseWs nextLine
        else base
    else authors2014Go n t

/-- The inner 2014 abstract loop (from the `Abstract:` line onwards). -/
def abstract2014Inner : List String → List String
  | [] => []
  | l :: t =>
    let al := pyStrip l
    if strStartsWith al "Keywords:" || al == "INTRODUCTION" ||
       al == "ANATOMY OF THE PROSTATE GLAND" || al == "MATERIAL AND METHODS" then []
    else if al != "" then
      let al2 := pyStrip (strDropSub al "Abstract:")
      if al2 != "" then al2 :: abstract2014Inner t else abstract2014Inner t
    else abstract2014Inner t

def keywords2014List : List String :=
  ["university", "institute", "hospital", "faculty", "romania", "bucharest",
   "medicine", "pharmacy", "department", "clinic"]

/-- A stripped line starting a 2014 affiliation (`"1 "` … `"5 "`). -/
def starts2014 (l : String) : Bool :=
  let s := pyStrip l
  strStartsWith s "1 " || strStartsWith s "2 " || strStartsWith s "3 " ||
  strStartsWith s "4 " || strStartsWith s "5 "

/-- The 2014 affiliation continuation loop. -/
def affCont2014 : List String → List String
  | [] => []
  | l :: t =>
    let nl := pyStrip l
    if starts2014 nl then []
    else if nl == "" then affCont2014 t
    else if keywords2014List.any (fun k => strContains (lowerStr nl) k) ||
            nl.data.length < 50 then nl :: affCont2014 t
    else []

/-- The 2014 affiliation scan (each start line is processed independently). -/
def affs2014 : List String → List (String × String)
  | [] => []
  | l :: t =>
    let line := pyStrip l
    if starts2014 line then
      let num := String.mk (line.data.takeWhile (fun c => !pyWs c))
      let firstPart := pyStrip (String.mk (line.data.drop num.data.length))
      let parts := firstPart :: affCont2014 t
      (num, String.intercalate " " parts) :: affs2014 t
    else affs2014 t

/-- The 2014 correspondence scan. -/
def corr2014 : List String → String
  | [] => ""
  | l :: t =>
    if strContains (lowerStr l) "corresponding author:" then
      let p1 := pyStrip (strDropSub l "Corresponding author:")
      match t with
      | [] => p1
      | nl :: _ =>
        let nextLine := pyStrip nl
        if strContains nextLine "@" then p1 ++ " " ++ nextLine else p1
    else corr2014 t

/-- The output record of `_parse_2014_format` (its key set differs from the
universal parser's: `received_date`/`accepted_date`/`revised_date`, and no
`article_file` key until the caller adds it). -/
structure Record2014 where
  format_detected : String
  title : String
  authors : List AuthorEntry
  authors_full : String
  abstract : String
  keywords : String
  doi : String
  received_date : String
  accepted_date : String
  revised_date : String
  academic_editor : String
  correspondence_full : String
  affiliations : List (String × String)
  citation : String
  issue : String
  year : String
  article_type : String
  correspondence_email : String
deriving Repr, DecidableEq

/-- `_parse_2014_format(txt)` from `scraper_2014.py`; the author-existence
lookup is passed in as `lookup`. -/
def parse2014Format (lookup : String → Bool) (txt : String) : Record2014 :=
  let lines := strSplitOnChar '\n' txt
  let issue :=
    match lines.head? with
    | some l0 =>
      match research patIssue2014 (pyStrip l0).data with
      | some m => pyStrip (String.mk (capGet m.caps 1))
      | none => ""
    | none => ""
  let articleType := if lines.length > 2 then pyStrip (lines.getD 2 "") else ""
  let dates := dates2014 (lines.take 10)
  let title := String.intercalate " " (title2014Go ((lines.take 12).drop 6) [])
  let authorsFull := authors2014Go (min 15 lines.length - 6) (lines.drop 6)
  let abstract :=
    match lines.findIdx? (fun l => strStartsWith (pyStrip l) "Abstract:") with
    | some i => String.intercalate " " (abstract2014Inner (lines.drop i))
    | none => ""
  let keywords :=
    match lines.find? (fun l => strStartsWith (pyStrip l) "Keywords:") with
    | some l => pyStrip (strDropSub l "Keywords:")
    | none => ""
  let affiliations := affs2014 lines
  let correspondenceFull := corr2014 lines
  let authors := splitAuthors lookup authorsFull
  { format_detected := "2014", title := title, authors := authors,
    authors_full := authorsFull, abstract := abstract, keywords := keywords,
    doi := "", received_date := dates.1, accepted_date := dates.2,
    revised_date := "", academic_editor := "",
    correspondence_full := correspondenceFull, affiliations := affiliations,
    citation := "", issue := issue, year := "2014",
    article_type := articleType, correspondence_email := "-" }

/-! ### Engine soundness: matches consume a prefix, captures are substrings -/

/-- If the matcher succeeds, the continuation was applied to a suffix of the
input. -/
theorem mrun_k_suffix :
    ∀ (fuel : Nat) (r : RE) (cs : List Char) (g : Caps)
      (k : List Char → Caps → Option (List Char × Caps)) res,
      mrun fuel r cs g k = some res →
      ∃ cs2 g2, cs2 <:+ cs ∧ k cs2 g2 = some res := by
  intro fuel
  induction fuel with
  | zero => intro r cs g k res h; simp [mrun] at h
  | succ f ih =>
    intro r cs g k res h
    cases r with
    | eps => exact ⟨cs, g, List.suffix_refl cs, h⟩
    | cls p =>
      cases cs with
      | nil => simp [mrun] at h
      | cons c rest =>
        simp only [mrun] at h
        by_cases hp : p c
        · rw [if_pos hp] at h
          exact ⟨rest, g, List.suffix_cons c rest, h⟩
        · rw [if_neg hp] at h
          exact absurd h (by simp)
    | seq a b =>
      simp only [mrun] at h
      obtain ⟨cs2, g2, hsuf, hk⟩ := ih a cs g _ res h
      obtain ⟨cs3, g3, hsuf2, hk2⟩ := ih b cs2 g2 k res hk
      exact ⟨cs3, g3, hsuf2.trans hsuf, hk2⟩
    | alt a b =>
      simp only [mrun] at h
      cases ha : mrun f a cs g k with
      | some v => rw [ha] at h; exact ih a cs g k res (ha.trans h)
      | none => rw [ha] at h; exact ih b cs g k res h
    | star greedy a =>
      simp only [mrun] at h
      by_cases hg : greedy
      · rw [if_pos hg] at h
        cases ha : mrun f a cs g _ with
        | some v =>
          rw [ha] at h
          cases h
          obtain ⟨cs2, g2, hsuf, hloop⟩ := ih a cs g _ res ha
          by_cases hlen : cs2.length < cs.length
          · rw [if_pos hlen] at hloop
            obtain ⟨cs3, g3, hsuf2, hk⟩ := ih (RE.star greedy a) cs2 g2 k res hloop
            exact ⟨cs3, g3, hsuf2.trans hsuf, hk⟩
          · rw [if_neg hlen] at hloop
            exact absurd hloop (by simp)
        | none =>
          rw [ha] at h
          exact ⟨cs, g, List.suffix_refl cs, h⟩
      · rw [if_neg hg] at h
        cases hk : k cs g with
        | some v => rw [hk] at h; exact ⟨cs, g, List.suffix_refl cs, hk.trans h⟩
        | none =>
          rw [hk] at h
          obtain ⟨cs2, g2, hsuf, hloop⟩ := ih a cs g _ res h
          by_cases hlen : cs2.length < cs.length
          · rw [if_pos hlen] at hloop
            obtain ⟨cs3, g3, hsuf2, hk2⟩ := ih (RE.star greedy a) cs2 g2 k res hloop
            exact ⟨cs3, g3, hsuf2.trans hsuf, hk2⟩
          · rw [if_neg hlen] at hloop
            exact absurd hloop (by simp)
    | grp n a =>
      simp only [mrun] at h
      obtain ⟨cs2, g2, hsuf, hk⟩ := ih a cs g _ res h
      exact ⟨cs2, (n, cs.take (cs.length - cs2.length)) :: g2, hsuf, hk⟩
    | look a =>
      simp only [mrun] at h
      cases ha : mrun f a cs g (fun cs2 g2 => some (cs2, g2)) with
      | some v => rw [ha] at h; exact ⟨cs, v.2, List.suffix_refl cs, h⟩
      | none => rw [ha] at h; exact absurd h (by simp)
    | lineEnd =>
      simp only [mrun] at h
      split at h
      · exact ⟨_, g, List.suffix_refl _, h⟩
      · exact ⟨_, g, List.suffix_refl _, h⟩
      · exact absurd h (by simp)
    | eos =>
      simp only [mrun] at h
      split at h
      · exact ⟨_, g, List.suffix_refl _, h⟩
      · exact absurd h (by simp)

/-- All captures produced by a successful match are contiguous substrings of
`w`, provided the input is a suffix of `w` and the incoming captures are. -/
theorem mrun_caps_infix (w : List Char) :
    ∀ (fuel : Nat) (r : RE) (cs : List Char) (g : Caps)
      (k : List Char → Caps → Option (List Char × Caps)) res,
      cs <:+ w → (∀ p ∈ g, p.2 <:+: w) →
      (∀ cs2 g2, cs2 <:+ w → (∀ p ∈ g2, p.2 <:+: w) →
        k cs2 g2 = some res → ∀ p ∈ res.2, p.2 <:+: w) →
      mrun fuel r cs g k = some res → ∀ p ∈ res.2, p.2 <:+: w := by
  intro fuel
  induction fuel with
  | zero => intro r cs g k res _ _ _ h; simp [mrun] at h
  | succ f ih =>
    intro r cs g k res hcs hg hk h
    cases r with
    | eps => exact hk cs g hcs hg h
    | cls p =>
      cases cs with
      | nil => simp [mrun] at h
      | cons c rest =>
        simp only [mrun] at h
        by_cases hp : p c
        · rw [if_pos hp] at h
          exact hk rest g ((List.suffix_cons c rest).trans hcs) hg h
        · rw [if_neg hp] at h; exact absurd h (by simp)
    | seq a b =>
      simp only [mrun] at h
      refine ih a cs g _ res hcs hg (fun cs2 g2 hcs2 hg2 hmid => ?_) h
      exact ih b cs2 g2 k res hcs2 hg2 hk hmid
    | alt a b =>
      simp only [mrun] at h
      cases ha : mrun f a cs g k with
      | some v => rw [ha] at h; exact ih a cs g k res hcs hg hk (ha.trans h)
      | none => rw [ha] at h; exact ih b cs g k res hcs hg hk h
    | star greedy a =>
      simp only [mrun] at h
      have hloop : ∀ cs2 g2, cs2 <:+ w → (∀ p ∈ g2, p.2 <:+: w) →
          (if cs2.length < cs.length then mrun f (RE.star greedy a) cs2 g2 k else none)
            = some res → ∀ p ∈ res.2, p.2 <:+: w := by
        intro cs2 g2 hcs2 hg2 hmid
        by_cases hlen : cs2.length < cs.length
        · rw [if_pos hlen] at hmid
          exact ih (RE.star greedy a) cs2 g2 k res hcs2 hg2 hk hmid
        · rw [if_neg hlen] at hmid; exact absurd hmid (by simp)
      by_cases hgr : greedy
      · rw [if_pos hgr] at h
        cases ha : mrun f a cs g _ with
        | some v =>
          rw [ha] at h; cases h
          exact ih a cs g _ res hcs hg hloop ha
        | none => rw [ha] at h; exact hk cs g hcs hg h
      · rw [if_neg hgr] at h
        cases hkk : k cs g with
        | some v => rw [hkk] at h; cases h; exact hk cs g hcs hg hkk
        | none =>
          rw [hkk] at h
          exact ih a cs g _ res hcs hg hloop h
    | grp n a =>
      simp only [mrun] at h
      refine ih a cs g _ res hcs hg (fun cs2 g2 hcs2 hg2 hmid => ?_) h
      refine hk cs2 ((n, cs.take (cs.length - cs2.length)) :: g2) hcs2 ?_ hmid
      intro p hp
      rcases List.mem_cons.mp hp with hp | hp
      · subst hp
        exact ((cs.take_prefix _).isInfix).trans hcs.isInfix
      · exact hg2 p hp
    | look a =>
      simp only [mrun] at h
      cases ha : mrun f a cs g (fun cs2 g2 => some (cs2, g2)) with
      | some v =>
        rw [ha] at h
        have hv : ∀ p ∈ v.2, p.2 <:+: w := by
          refine ih a cs g _ v hcs hg (fun cs2 g2 _ hg2 hmid => ?_) ha
          cases hmid; exact hg2
        exact hk cs v.2 hcs hv h
      | none => rw [ha] at h; exact absurd h (by simp)
    | lineEnd =>
      simp only [mrun] at h
      split at h
      · exact hk _ g hcs hg h
      · exact hk _ g hcs hg h
      · exact absurd h (by simp)
    | eos =>
      simp only [mrun] at h
      split at h
      · exact hk _ g hcs hg h
      · exact absurd h (by simp)

/-- A successful search starts at a suffix of the input and its captures are
contiguous substrings of the input. -/
theorem research_infix (r : RE) :
    ∀ (cs : List Char) m, research r cs = some m →
      m.startSuf <:+ cs ∧ ∀ p ∈ m.caps, p.2 <:+: cs := by
  intro cs
  induction cs with
  | nil =>
    intro m h
    simp only [research, rmatch] at h
    cases hr : mrun (fuelFor []) r [] [] (fun rest g => some (rest, g)) with
    | some v =>
      rw [hr] at h; cases h
      refine ⟨List.suffix_refl _, ?_⟩
      refine mrun_caps_infix [] _ r [] [] _ v (List.suffix_refl _) (by simp)
        (fun cs2 g2 _ hg2 hmid => ?_) hr
      cases hmid; exact hg2
    | none => rw [hr] at h; exact absurd h (by simp)
  | cons c t ihp =>
    intro m h
    simp only [research, rmatch] at h
    cases hr : mrun (fuelFor (c :: t)) r (c :: t) [] (fun rest g => some (rest, g)) with
    | some v =>
      rw [hr] at h; cases h
      refine ⟨List.suffix_refl _, ?_⟩
      refine mrun_caps_infix (c :: t) _ r (c :: t) [] _ v (List.suffix_refl _) (by simp)
        (fun cs2 g2 _ hg2 hmid => ?_) hr
      cases hmid; exact hg2
    | none =>
      rw [hr] at h
      obtain ⟨hsuf, hcaps⟩ := ihp m h
      exact ⟨hsuf.trans (List.suffix_cons c t), fun p hp => (hcaps p hp).trans
        (List.suffix_cons c t).isInfix⟩

/-! ### The claims -/

/-- The classifier's signature rules as an explicit ordered list, following
the spec's reading ("decision order, first match wins"): each rule yields a
tag or passes. -/
def classifyRules : List (String → Option String) :=
  [fun t => if has2025Doi t then some "2025" else none,
   fun t => if has2020Volume t || (has1920Acceptance t && hasNoDoi t)
            then some "2020" else none,
   fun t => if hasDoiColon t then some "2022" else none,
   fun t => if hasVolRomanian t then
              some (if hasCorrLabel t then "2022" else "2023")
            else none,
   fun t => if has2022DatePhrase t then some "2022" else none]

/-- First matching rule wins; otherwise the default tag. -/
def firstMatchTag (rules : List (String → Option String)) (t : String)
    (dflt : String) : String :=
  match rules with
  | [] => dflt
  | r :: rs =>
    match r t with
    | some tag => tag
    | none => firstMatchTag rs t dflt

/-- C1: `_detect_format` applies its signature rules in the fixed precedence
order — (1) the 2025 resolver-prefix DOI URL, (2) the 2020 volume header or
a 2019/2020 received/accepted phrase with no DOI indicator, (3) a short-form
`doi: <digits>` indicator, (4) the journal volume header, 2022 with a
`Corresponding author:` label and 2023 without, (5) the
"The article was received on ..., <year>, and accepted for publishing on ..."
sentence — and returns the tag of the first rule that matches, defaulting
to 2024. -/
theorem claim1_detect_format_precedence (t : String) :
    detectFormat t = firstMatchTag classifyRules t "2024" := by
  simp only [detectFormat, classifyRules, firstMatchTag]
  cases has2025Doi t <;> cases has2020Volume t <;> cases has1920Acceptance t <;>
    cases hasNoDoi t <;> cases hasDoiColon t <;> cases hasVolRomanian t <;>
    cases hasCorrLabel t <;> cases has2022DatePhrase t <;> simp

/-- C2: `_detect_format` is a total deterministic function: every input text
is mapped to one member of the fixed tag set {2025, 2020, 2022, 2023, 2024}
(never an error), and input matching none of the signature rules falls
through to the default tag 2024. -/
theorem claim2_classify_total (t : String) :
    detectFormat t ∈ (["2025", "2020", "2022", "2023", "2024"] : List String) ∧
    (has2025Doi t = false → has2020Volume t = false →
     (has1920Acceptance t && hasNoDoi t) = false → hasDoiColon t = false →
     hasVolRomanian t = false → has2022DatePhrase t = false →
     detectFormat t = "2024") := by
  constructor
  · simp only [detectFormat]
    cases has2025Doi t <;> cases has2020Volume t <;> cases has1920Acceptance t <;>
      cases hasNoDoi t <;> cases hasDoiColon t <;> cases hasVolRomanian t <;>
      cases hasCorrLabel t <;> cases has2022DatePhrase t <;> simp
  · intro h1 h2 h3 h4 h5 h6
    simp [detectFormat, h1, h2, h3, h4, h5, h6]

/-- C2 witness: a text with no recognisable DOI, date or header cue is
classified as 2024. -/
theorem claim2_classify_total_witness :
    detectFormat "hello general text" ∈
      (["2025", "2020", "2022", "2023", "2024"] : List String) ∧
    detectFormat "hello general text" = "2024" :=
  ⟨(claim2_classify_total "hello general text").1,
   (claim2_classify_total "hello general text").2 (by decide) (by decide)
     (by decide) (by decide) (by decide) (by decide)⟩

/-- C5 counterexample: on a text whose 2024-branch window holds two
affiliation lines with the same marker `1`, `_affiliations_universal`
returns two entries with the same numeric marker, so the claim's
"no numeric marker value appears in more than one entry" is false. -/
theorem claim5_counterexample :
    (affiliationsUniversal
        "1 University Hospital Unit, Bucharest\n1 Military University Hospital, Bucharest\nCorrespondence: a@b.co"
        "2024").map Prod.fst = ["1", "1"] ∧
    ¬ List.Pairwise (fun a b => digitsVal a.1 ≠ digitsVal b.1)
        (affiliationsUniversal
          "1 University Hospital Unit, Bucharest\n1 Military University Hospital, Bucharest\nCorrespondence: a@b.co"
          "2024") := by
  constructor
  · rfl
  · decide

instance : IsTotal (String × String) (fun a b => digitsVal a.1 ≤ digitsVal b.1) :=
  ⟨fun _ _ => Nat.le_total _ _⟩

instance : IsTrans (String × String) (fun a b => digitsVal a.1 ≤ digitsVal b.1) :=
  ⟨fun _ _ _ => Nat.le_trans⟩

/-- C5 (amended): for every input text and format tag, the affiliation list
returned by `_affiliations_universal` is sorted (non-strictly) ascending by
the numeric value of the marker; the same marker value may however appear in
more than one entry. -/
theorem claim5_affiliations_sorted (text formatType : String) :
    List.Sorted (fun a b => digitsVal a.1 ≤ digitsVal b.1)
      (affiliationsUniversal text formatType) := by
  have h : affiliationsUniversal text formatType =
      List.insertionSort (fun a b => digitsVal a.1 ≤ digitsVal b.1)
        (affsUnsorted text formatType) := rfl
  rw [h]
  exact List.sorted_insertionSort _ _

/-- C7 counterexample: a 500 response is not a success status, yet the
existence probe returns `true` for it (the source only fails on a raised
transport error or a 404). -/
theorem claim7_counterexample :
    checkAuthorExists (Except.ok 500) = true ∧ ¬ (200 ≤ 500 ∧ 500 < 300) := by
  exact ⟨rfl, by omega⟩

/-- C7 (amended): the existence probe never propagates an error, and it
returns `false` exactly when the request raised a transport error or the
response status is 404; every other status — success or not — yields
`true`. -/
theorem claim7_author_probe (r : Except Unit Nat) :
    checkAuthorExists r = false ↔ (r = Except.error () ∨ r = Except.ok 404) := by
  cases r with
  | error e => cases e; simp [checkAuthorExists]
  | ok code => simp [checkAuthorExists]

/-- C4 counterexample: on the raw author line
`"Ion Popescu1, Maria Ionescu2,3"`, `_split_authors` produces the second
entry with orders `"2, 3"` — the normalised numbers are rejoined with
`", "` (comma and space) — not `"2,3"` as the claim states. -/
theorem claim4_counterexample :
    (splitAuthors (fun _ => false) "Ion Popescu1, Maria Ionescu2,3").map
      (fun a => (a.name, a.orders)) =
      [("Ion Popescu", "1"), ("Maria Ionescu", "2, 3")] ∧
    ("2, 3" : String) ≠ "2,3" := by
  exact ⟨rfl, by decide⟩

/-- C4 (amended): on the raw author line `"Ion Popescu1, Maria Ionescu2,3"`,
`_split_authors` returns exactly two entries, the first named
`"Ion Popescu"` with orders `"1"`, the second named `"Maria Ionescu"` with
orders `"2, 3"` (numbers normalised superscript-to-digit, spaces stripped,
split on comma and rejoined with `", "`); the existence flag is the value of
the external lookup. -/
theorem claim4_split_authors :
    splitAuthors (fun _ => false) "Ion Popescu1, Maria Ionescu2,3" =
      [AuthorEntry.mk "Ion Popescu" "1" false,
       AuthorEntry.mk "Maria Ionescu" "2, 3" false] := by
  rfl

/-- C6 counterexample: the claim's own scenario fails on
`"http://doi.org/zzz doi: 10.1234/abc"` — the text contains
`"doi: 10.1234/abc"` and no `"https://doi.org/"`, yet the result is the
verbatim `http://` resolver match (the URL pattern is `https?://`), not
`"https://doi.org/10.1234/abc"`. -/
theorem claim6_counterexample :
    strContains "http://doi.org/zzz doi: 10.1234/abc" "doi: 10.1234/abc" = true ∧
    strContains "http://doi.org/zzz doi: 10.1234/abc" "https://doi.org/" = false ∧
    extractDoiUniversal "http://doi.org/zzz doi: 10.1234/abc" = "http://doi.org/zzz" ∧
    ("http://doi.org/zzz" : String) ≠ "https://doi.org/10.1234/abc" := by
  exact ⟨by decide, by decide, rfl, by decide⟩

/-- C6 (amended): for every input text, DOI extraction returns the first
`http://doi.org/...` or `https://doi.org/...` match — a verbatim contiguous
substring of the text — when one is present; otherwise, when a bare
`doi: <id>` match is present, the identifier rewritten to the full
`https://doi.org/<id>` resolver form; and the empty string when neither is
present. -/
theorem claim6_doi_normalization (text : String) :
    (∀ m, findDoiUrl text = some m →
       extractDoiUniversal text = pyStrip m ∧ m.data <:+: text.data) ∧
    (findDoiUrl text = none → ∀ id, findDoiPrefix text = some id →
       extractDoiUniversal text = "https://doi.org/" ++ pyStrip id) ∧
    (findDoiUrl text = none → findDoiPrefix text = none →
       extractDoiUniversal text = "") := by
  refine ⟨fun m hm => ⟨?_, ?_⟩, fun h1 id hid => ?_, fun h1 h2 => ?_⟩
  · unfold extractDoiUniversal
    rw [hm]
  · unfold findDoiUrl at hm
    cases hr : research patFullDoi text.data with
    | none => rw [hr] at hm; exact absurd hm (by simp)
    | some mr =>
      rw [hr] at hm
      simp only [Option.some_bind] at hm
      cases hg : mr.group 1 with
      | none => rw [hg] at hm; exact absurd hm (by simp)
      | some cap =>
        rw [hg] at hm
        simp only [Option.map_some'] at hm
        obtain ⟨_, hcaps⟩ := research_infix patFullDoi text.data mr hr
        have hcap : cap <:+: text.data := by
          unfold MRes.group at hg
          cases hf : mr.caps.find? (fun p => p.1 = 1) with
          | none => rw [hf] at hg; exact absurd hg (by simp)
          | some pr =>
            rw [hf] at hg
            simp only [Option.map_some'] at hg
            have hmem := hcaps pr (List.mem_of_find?_eq_some hf)
            rwa [Option.some.inj hg] at hmem
        have hmd : m = String.mk cap := (Option.some.inj hm).symm
        rw [hmd]
        exact hcap
  · simp [extractDoiUniversal, h1, hid]
  · simp [extractDoiUniversal, h1, h2]

/-- C6 witness: both rewrite branches of the amended claim at concrete
inputs — a bare `doi:` text rewrites to the resolver URL, a full URL is
returned verbatim, and a cue-free text yields the empty string. -/
theorem claim6_doi_normalization_witness :
    extractDoiUniversal "doi: 10.1234/abc" = "https://doi.org/10.1234/abc" ∧
    extractDoiUniversal "see https://doi.org/10.55453/x now" =
      pyStrip "https://doi.org/10.55453/x" ∧
    extractDoiUniversal "plain" = "" :=
  ⟨(claim6_doi_normalization "doi: 10.1234/abc").2.1 (by decide)
     "10.1234/abc" (by decide),
   ((claim6_doi_normalization "see https://doi.org/10.55453/x now").1
     "https://doi.org/10.55453/x" (by decide)).1,
   (claim6_doi_normalization "plain").2.2 (by decide) (by decide)⟩

/-- C9: with the author-existence lookup fixed (any two lookups agreeing on
every name), two runs of `_parse_page1_universal` on identical page text and
override produce identical records — the extraction pipeline is
deterministic. -/
theorem claim9_parse_deterministic (L1 L2 : String → Bool) (txt : String)
    (override : Option String) (h : ∀ n, L1 n = L2 n) :
    parsePage1Universal L1 txt override = parsePage1Universal L2 txt override := by
  have hL : L1 = L2 := funext h
  rw [hL]

/-- C9 witness: two runs with the constant-false lookup on a concrete text
coincide. -/
theorem claim9_parse_deterministic_witness :
    parsePage1Universal (fun _ => false) "some page" none =
      parsePage1Universal (fun _ => false) "some page" none :=
  claim9_parse_deterministic (fun _ => false) (fun _ => false) "some page" none
    (fun _ => rfl)

/-- C3 counterexample: on a text in which no correspondence, article-type or
other data is found, the 2014-format parser still sets
`correspondence_email` to the non-empty placeholder `"-"`, and the universal
parser sets `article_type` to the non-empty default `"Original Research"` —
contradicting "any field for which no data was found holds the empty string
or empty sequence — never ... a non-empty placeholder value". -/
theorem claim3_counterexample :
    (parse2014Format (fun _ => false) "No data here").correspondence_full = "" ∧
    (parse2014Format (fun _ => false) "No data here").correspondence_email = "-" ∧
    (parsePage1Universal (fun _ => false) "No data here" none).article_type =
      "Original Research" ∧
    ("-" : String) ≠ "" ∧ ("Original Research" : String) ≠ "" := by
  exact ⟨rfl, rfl, by decide, by decide, by decide⟩

/-- C3 (amended): every record produced by `_parse_page1_universal` and
`_parse_2014_format` has every declared field present with its declared type
(enforced here by the `ArticleRecord` / `Record2014` structure types, on
every input), and a field for which no data was found holds the empty string
or empty sequence — with these exceptions: format detection falls back to a
non-empty residual tag (`"2024"` / `"2014"`), the universal parser's
`article_type` falls back to the non-empty default `"Original Research"`,
and the 2014-format parser always sets `year` to `"2014"` and
`correspondence_email` to the placeholder `"-"`.  Proved below for every
declared field: the caller-context fields are always empty; each extractor
yields its empty default when its searches miss (keywords, DOI, authors,
academic editor, the three dates, correspondence email and full text,
abstract, affiliations); the 2014 parser's constant fields; and — covering
both records field by field at once — the records produced from the empty
input are entirely empty apart from the listed exceptions. -/
theorem claim3_record_defaults (lookup : String → Bool) (txt : String)
    (override : Option String) :
    ((parsePage1Universal lookup txt override).citation = "" ∧
     (parsePage1Universal lookup txt override).article_file = "" ∧
     (parsePage1Universal lookup txt override).issue = "" ∧
     (parsePage1Universal lookup txt override).year = "") ∧
    (findKeywords txt = none → (parsePage1Universal lookup txt override).keywords = "") ∧
    (findDoiUrl txt = none → findDoiPrefix txt = none →
      (parsePage1Universal lookup txt override).doi = "") ∧
    ((parsePage1Universal lookup txt override).authors_full = "" →
      (parsePage1Universal lookup txt override).authors = []) ∧
    (research patEditor1 txt.data = none → research patEditor2 txt.data = none →
      research patEditor3 txt.data = none →
      (parsePage1Universal lookup txt override).academic_editor = "") ∧
    (research patDatesP1 txt.data = none → research patDatesP2 txt.data = none →
      research patDatesP3 txt.data = none → research patDatesP4 txt.data = none →
      research patRecvSingle txt.data = none → research patRevSingle txt.data = none →
      research patAccSingle txt.data = none → research patDatesSimple txt.data = none →
      (parsePage1Universal lookup txt override).received = "" ∧
      (parsePage1Universal lookup txt override).revised = "" ∧
      (parsePage1Universal lookup txt override).accepted = "") ∧
    (research patCorr2025 txt.data = none → research patCorr2022 txt.data = none →
      research patEmail txt.data = none →
      (parsePage1Universal lookup txt override).correspondence_email = "" ∧
      (parsePage1Universal lookup txt override).correspondence_full = "") ∧
    ((scanAbsKw 0 none (splitlinesPy txt)).1 = none →
      research patAbstractRe txt.data = none →
      (parsePage1Universal lookup txt override).abstract = "") ∧
    (detectFormat txt = "2024" →
      (splitlinesPy txt).findIdx? (fun l =>
        strContains (pyStrip l) "Correspondence" ||
        strContains (pyStrip l) "Corresponding author") = none →
      (parsePage1Universal lookup txt override).affiliations = []) ∧
    ((parse2014Format lookup txt).format_detected = "2014" ∧
     (parse2014Format lookup txt).year = "2014" ∧
     (parse2014Format lookup txt).correspondence_email = "-" ∧
     (parse2014Format lookup txt).doi = "" ∧
     (parse2014Format lookup txt).revised_date = "" ∧
     (parse2014Format lookup txt).academic_editor = "" ∧
     (parse2014Format lookup txt).citation = "") ∧
    (parsePage1Universal lookup "" none =
      { format_detected := "2024", doi := "", title := "", authors_full := "",
        authors := [], correspondence_email := "", correspondence_full := "",
        affiliations := [], article_type := "Original Research",
        received := "", revised := "", accepted := "", academic_editor := "",
        keywords := "", abstract := "", citation := "", article_file := "",
        issue := "", year := "" } ∧
     parse2014Format lookup "" =
      { format_detected := "2014", title := "", authors := [],
        authors_full := "", abstract := "", keywords := "", doi := "",
        received_date := "", accepted_date := "", revised_date := "",
        academic_editor := "", correspondence_full := "", affiliations := [],
        citation := "", issue := "", year := "2014", article_type := "",
        correspondence_email := "-" }) := by
  refine ⟨⟨rfl, rfl, rfl, rfl⟩, fun hk => ?_, fun h1 h2 => ?_, fun ha => ?_,
          fun he1 he2 he3 => ?_,
          fun hd1 hd2 hd3 hd4 hsr hsv hsa hsim => ?_,
          fun hc1 hc2 hc3 => ?_,
          fun hab1 hab2 => ?_,
          fun hf hcorr => ?_,
          ⟨rfl, rfl, rfl, rfl, rfl, rfl, rfl⟩, ⟨rfl, rfl⟩⟩
  · simp [parsePage1Universal, hk]
  · simp [parsePage1Universal, extractDoiUniversal, h1, h2]
  · have h2 : (titleAuthorsUniversal txt (detectFormat txt) override).2 = "" := ha
    show splitAuthors lookup (titleAuthorsUniversal txt (detectFormat txt) override).2 = []
    rw [h2]
    rfl
  · have hfind : [patEditor1, patEditor2, patEditor3].findSome?
        (fun p => research p txt.data) = none := by
      simp [List.findSome?_cons, List.findSome?_nil, he1, he2, he3]
    simp [parsePage1Universal, extractAcademicEditor, hfind]
  · have hfind : [patDatesP1, patDatesP2, patDatesP3, patDatesP4].findSome?
        (fun p => research p txt.data) = none := by
      simp [List.findSome?_cons, List.findSome?_nil, hd1, hd2, hd3, hd4]
    have hdates : parseDatesFlexible txt = ⟨"", "", ""⟩ := by
      simp [parseDatesFlexible, hfind, hsr, hsv, hsa, hsim]
    refine ⟨?_, ?_, ?_⟩ <;> simp [parsePage1Universal, hdates]
  · have hcu : correspondenceUniversal txt = ("", "") := by
      simp [correspondenceUniversal, findEmail, hc1, hc2, hc3]
    refine ⟨?_, ?_⟩ <;> simp [parsePage1Universal, hcu]
  · simp [parsePage1Universal, extractAbstractImproved, hab1, hab2]
  · show affiliationsUniversal txt (detectFormat txt) = []
    rw [hf]
    have h0 : affsUnsorted txt "2024" = [] := by
      simp [affsUnsorted, hcorr]
    show sortAffs (affsUnsorted txt "2024") = []
    rw [h0]
    rfl

/-- C3 witness: the conditional parts of the amended claim discharged on a
concrete cue-free text. -/
theorem claim3_record_defaults_witness :
    (parsePage1Universal (fun _ => false) "x" none).keywords = "" ∧
    (parsePage1Universal (fun _ => false) "x" none).doi = "" ∧
    (parsePage1Universal (fun _ => false) "x" none).authors = [] ∧
    (parsePage1Universal (fun _ => false) "x" none).academic_editor = "" ∧
    (parsePage1Universal (fun _ => false) "x" none).received = "" ∧
    (parsePage1Universal (fun _ => false) "x" none).correspondence_email = "" ∧
    (parsePage1Universal (fun _ => false) "x" none).abstract = "" ∧
    (parsePage1Universal (fun _ => false) "x" none).affiliations = [] :=
  ⟨(claim3_record_defaults (fun _ => false) "x" none).2.1 (by decide),
   (claim3_record_defaults (fun _ => false) "x" none).2.2.1 (by decide) (by decide),
   (claim3_record_defaults (fun _ => false) "x" none).2.2.2.1 (by decide),
   (claim3_record_defaults (fun _ => false) "x" none).2.2.2.2.1
     (by decide) (by decide) (by decide),
   ((claim3_record_defaults (fun _ => false) "x" none).2.2.2.2.2.1
     (by decide) (by decide) (by decide) (by decide)
     (by decide) (by decide) (by decide) (by decide)).1,
   ((claim3_record_defaults (fun _ => false) "x" none).2.2.2.2.2.2.1
     (by decide) (by decide) (by decide)).1,
   (claim3_record_defaults (fun _ => false) "x" none).2.2.2.2.2.2.2.1
     (by decide) (by decide),
   (claim3_record_defaults (fun _ => false) "x" none).2.2.2.2.2.2.2.2.1
     (by decide) (by decide)⟩

/-- The override-branch author collection stated with `takeWhile`/`filter`:
the stripped non-empty lines strictly before the first stop line. -/
def ovAuthorsSpec (lines : List String) : List String :=
  ((lines.takeWhile (fun ln => !overrideStop ln)).map pyStrip).filter
    (fun s => s != "")

theorem collectAuthorsUntilStop_eq (lines : List String) :
    collectAuthorsUntilStop lines = ovAuthorsSpec lines := by
  induction lines with
  | nil => rfl
  | cons l t ih =>
    have hL : collectAuthorsUntilStop (l :: t) =
        if overrideStop l then []
        else if pyStrip l != "" then pyStrip l :: collectAuthorsUntilStop t
        else collectAuthorsUntilStop t := rfl
    have hR : ovAuthorsSpec (l :: t) =
        if overrideStop l then []
        else if pyStrip l != "" then pyStrip l :: ovAuthorsSpec t
        else ovAuthorsSpec t := by
      unfold ovAuthorsSpec
      cases hs : overrideStop l with
      | true => simp [List.takeWhile_cons, hs]
      | false =>
        cases he : (pyStrip l != "") with
        | true => simp [List.takeWhile_cons, List.filter_cons, hs, he]
        | false => simp [List.takeWhile_cons, List.filter_cons, hs, he]
    rw [hL, hR, ih]

/-- C10 counterexample: the override `"title of paper"` occurs in the page
text with ordinary whitespace (case-insensitively, flexible whitespace), but
the compiled pattern — whose inter-token separator is a literal backslash
followed by `s+`, an artifact of `re.escape` escaping spaces before the
`\s+` rewrite — does not match, so the override branch is never taken: the
extraction equals the no-override run and the returned title is not the
stripped override, contrary to the claim's match case. -/
theorem claim10_counterexample :
    occursFlexible "junk\nTitle Of Paper\nAuthor One1\nAbstract: hi"
      "title of paper" = true ∧
    findOverride "junk\nTitle Of Paper\nAuthor One1\nAbstract: hi"
      "title of paper" = none ∧
    titleAuthorsUniversal "junk\nTitle Of Paper\nAuthor One1\nAbstract: hi"
      "2024" (some "title of paper") =
      titleAuthorsUniversal "junk\nTitle Of Paper\nAuthor One1\nAbstract: hi"
      "2024" none ∧
    (titleAuthorsUniversal "junk\nTitle Of Paper\nAuthor One1\nAbstract: hi"
      "2024" (some "title of paper")).1 ≠ pyStrip "title of paper" := by
  refine ⟨by decide, by decide, by decide, by decide⟩

/-- C10 (amended): for every page text, format tag and non-empty title
override — the override branch triggers exactly when the compiled override
pattern matches: its tokens case-insensitively, joined by a literal
backslash plus one or more `s` (so a multi-word override separated by
ordinary whitespace in the text is silently ignored, while a single-word
override is found case-insensitively).  When the pattern matches,
title/author extraction returns the stripped override as the title and the
cleaned join of the non-empty lines between the match end and the first
stop line (affiliation marker, Correspondence / Corresponding author label,
or Abstract/Keywords label) as the author line; when it does not match,
extraction proceeds exactly as if no override had been supplied. -/
theorem claim10_title_override (text formatType ov : String) (hov : ov ≠ "") :
    (∀ rest, findOverride text ov = some rest →
       titleAuthorsUniversal text formatType (some ov) =
         (pyStrip ov,
          cleaned (String.intercalate " " (ovAuthorsSpec (splitlinesPy rest))))) ∧
    (findOverride text ov = none →
       titleAuthorsUniversal text formatType (some ov) =
         titleAuthorsUniversal text formatType none) := by
  have hb : (ov != "") = true := by simpa using hov
  constructor
  · intro rest hrest
    simp only [titleAuthorsUniversal, hb, if_true, hrest,
      collectAuthorsUntilStop_eq]
  · intro hnone
    simp only [titleAuthorsUniversal, hb, if_true, hnone]

/-- C10 witness: a single-word override found case-insensitively on a
concrete text (the branch triggers), and a non-matching override on another
(the branch is skipped). -/
theorem claim10_title_override_witness :
    titleAuthorsUniversal "CASE\nNeurosurgery\nAuthor One1\nAbstract: hi"
      "2024" (some "neurosurgery") =
      (pyStrip "neurosurgery",
       cleaned (String.intercalate " "
         (ovAuthorsSpec (splitlinesPy "\nAuthor One1\nAbstract: hi")))) ∧
    titleAuthorsUniversal "no match here" "2024" (some "absent title") =
      titleAuthorsUniversal "no match here" "2024" none :=
  ⟨(claim10_title_override "CASE\nNeurosurgery\nAuthor One1\nAbstract: hi"
      "2024" "neurosurgery" (by decide)).1 "\nAuthor One1\nAbstract: hi"
      (by decide),
   (claim10_title_override "no match here" "2024" "absent title"
      (by decide)).2 (by decide)⟩

/-! ### C8: the round-trip pages -/

set_option maxRecDepth 40000

def diacriticTitle : String := "Stări Depresive"

/-- A synthetic 2024-era page whose title contains Romanian diacritics. -/
def pageDia : String :=
  "https://doi.org/10.55453/rjmm.2024.127.1.5\n\n" ++ diacriticTitle ++
  "\n\nIon Popescu1\n\n1 Faculty of Medicine, University of Bucharest, Romania\n\nCorrespondence: ion@x.ro"

/-- C8 counterexample: the diacritic title occurs verbatim in a synthetic
2024-era page, but `parseFirstPage` reproduces it with the diacritics
stripped (`cleaned` applies NFKD and removes combining marks), so the title
is not reproduced character for character. -/
theorem claim8_counterexample :
    diacriticTitle.data <:+: pageDia.data ∧
    (parsePage1Universal (fun _ => false) pageDia none).title = "Stari Depresive" ∧
    (parsePage1Universal (fun _ => false) pageDia none).title ≠ diacriticTitle := by
  refine ⟨by decide, by decide, by decide⟩

def titleK : String := "Advances in Military Medicine"
def authorsK : String := "John Smith1, Jane Doe2"
def affilK : String := "Department of Surgery, Central University Hospital, Bucharest, Romania"
def receivedK : String := "5 January 2024"
def acceptedK : String := "20 February 2024"
def doiK : String := "https://doi.org/10.55453/rjmm.2024.127.1.5"
def keywordsK : String := "military, medicine"
def emailK : String := "jane.doe@example.com"

/-- A synthetic page following the 2024-era layout, built from the known
strings above. -/
def page2024 : String :=
  doiK ++ "\n\n" ++ titleK ++ "\n\n" ++ authorsK ++ "\n\n1 " ++ affilK ++
  "\n\nCorrespondence: " ++ emailK ++
  "\n\nAbstract: We study a topic in military medicine and report the findings of the study here.\nKeywords: " ++
  keywordsK ++ "\nThe article was received on " ++ receivedK ++
  ", and accepted for publishing on " ++ acceptedK ++ "."

/-- C8 (amended): on a synthetic page built from known strings following the
2024-era layout, `parseFirstPage` reproduces the whitespace-collapsed,
NFKD-diacritic-stripped forms of those strings in the corresponding fields;
for the diacritic-free strings of this page the reproduction is character
for character (title, author line, affiliation, dates, DOI, keywords and
correspondence email are recovered exactly). -/
theorem claim8_round_trip :
    (parsePage1Universal (fun _ => false) page2024 none).format_detected = "2024" ∧
    (parsePage1Universal (fun _ => false) page2024 none).title = titleK ∧
    (parsePage1Universal (fun _ => false) page2024 none).authors_full = authorsK ∧
    (parsePage1Universal (fun _ => false) page2024 none).affiliations = [("1", affilK)] ∧
    (parsePage1Universal (fun _ => false) page2024 none).received = receivedK ∧
    (parsePage1Universal (fun _ => false) page2024 none).accepted = acceptedK ∧
    (parsePage1Universal (fun _ => false) page2024 none).doi = doiK ∧
    (parsePage1Universal (fun _ => false) page2024 none).keywords = keywordsK ∧
    (parsePage1Universal (fun _ => false) page2024 none).correspondence_email = emailK := by
  refine ⟨by decide, by decide, by decide, by decide, by decide, by decide,
          by decide, by decide, by decide⟩

end Scraper
